import Mathlib

/-!
Verification development for the data-contract module `aioyookassa/types/payment.py`.

The module is a set of pydantic entity models (Payment, PaymentAmount, Transfer,
CardInfo, ...) that validate incoming JSON payloads from a payment gateway and
re-serialize entities to the wire format using per-field aliases.

We shallowly embed the payloads as a JSON value type, each pydantic model as a
Lean structure, model construction (pydantic validation) as a total function
from JSON to an error-accumulating result (pydantic collects all field errors of
a model), and serialization (`by_alias` dumping) as a function from the
structure back to JSON.
-/

set_option maxHeartbeats 1000000

/-- A JSON value.  Objects are association lists of key/value pairs; numbers
carry their exact decimal value as a rational. -/
inductive Json where
  | null : Json
  | bool : Bool → Json
  | num : ℚ → Json
  | str : String → Json
  | arr : List Json → Json
  | obj : List (String × Json) → Json

/-- First-match lookup of a key in a JSON object's pair list (Python dicts have
unique keys, so first match is the match). -/
def jlookup : List (String × Json) → String → Option Json
  | [], _ => none
  | (k, v) :: rest, key => if key = k then some v else jlookup rest key

/-- Whether a key occurs among the pairs. -/
def hasKey (kvs : List (String × Json)) (k : String) : Bool :=
  (jlookup kvs k).isSome

/-- All keys of the pair list are distinct (a well-formed JSON object). -/
def nodupKeys : List (String × Json) → Bool
  | [] => true
  | (k, _) :: rest => !(hasKey rest k) && nodupKeys rest

/-- Result of validating one model or field: either a constructed value or a
non-empty collection of field-path-qualified error messages.  Mirrors a
pydantic ValidationError, which reports all failing fields of a model at
once. -/
inductive Vd (α : Type) where
  | ok : α → Vd α
  | err : List String → Vd α

/-- Applicative application that accumulates errors from both sides, the way
pydantic collects the errors of every field of a model. -/
def Vd.ap {α β : Type} : Vd (α → β) → Vd α → Vd β
  | .ok f, .ok a => .ok (f a)
  | .ok _, .err e => .err e
  | .err e, .ok _ => .err e
  | .err e, .err e₂ => .err (e ++ e₂)

/-- The error messages carried by a result (empty for a success). -/
def Vd.errs {α : Type} : Vd α → List String
  | .ok _ => []
  | .err e => e

/-- Whether validation succeeded. -/
def Vd.isOk {α : Type} : Vd α → Bool
  | .ok _ => true
  | .err _ => false

/-- Qualify every error message of a result with the name of the field it
arose under, building pydantic-style field paths such as `amount.value`. -/
def withPath {α : Type} (k : String) : Vd α → Vd α
  | .ok a => .ok a
  | .err es => .err (es.map (fun e => k ++ "." ++ e))

/-- Sequence a list of results, accumulating the errors of every element. -/
def Vd.seqList {α : Type} : List (Vd α) → Vd (List α)
  | [] => .ok []
  | x :: xs => (Vd.ok List.cons).ap x |>.ap (Vd.seqList xs)

theorem Vd.errs_ap {α β : Type} (f : Vd (α → β)) (x : Vd α) :
    (Vd.ap f x).errs = f.errs ++ x.errs := by
  cases f <;> cases x <;> simp [Vd.ap, Vd.errs]

theorem Vd.ap_ok {α β : Type} {f : Vd (α → β)} {x : Vd α} {b : β}
    (h : Vd.ap f x = .ok b) : ∃ g a, f = .ok g ∧ x = .ok a ∧ g a = b := by
  cases f <;> cases x <;> simp_all [Vd.ap]

theorem Vd.isOk_false_of_errs {α : Type} {x : Vd α} (h : x.errs ≠ []) :
    x.isOk = false := by
  cases x <;> simp_all [Vd.errs, Vd.isOk]

theorem withPath_ok {α : Type} {k : String} {v : Vd α} {a : α} :
    withPath k v = .ok a ↔ v = .ok a := by
  cases v <;> simp [withPath]

theorem withPath_errs {α : Type} (k : String) (v : Vd α) :
    (withPath k v).errs = v.errs.map (fun e => k ++ "." ++ e) := by
  cases v <;> simp [withPath, Vd.errs]

/-! ## Python numbers

`PaymentAmount.value` is annotated `int | float`.  A JSON integer is a Python
`int` (arbitrary precision, exact); any other JSON number is already converted
by Python's JSON parser to a `float`, i.e. to the nearest IEEE-754 binary64
value.  We model a float by the exact rational value of that binary64
(round-to-nearest, ties-to-even, 53-bit significand; overflow/subnormal
behavior is out of range for the monetary magnitudes modelled here). -/

/-- Round the non-negative fraction `n / d` to an integer, ties to even
(IEEE-754 default rounding), in pure integer arithmetic. -/
def roundHalfEvenInt (n d : ℤ) : ℤ :=
  let fl := n / d
  let r := n % d
  if 2 * r < d then fl
  else if d < 2 * r then fl + 1
  else if fl % 2 = 0 then fl else fl + 1

/-- Binary exponent search for the positive fraction `n / d`: doubles the
smaller side until `2 ^ e ≤ n / d < 2 ^ (e + 1)` and returns `e`
(fuel-bounded structural recursion in pure integer arithmetic). -/
def findExpN : Nat → ℤ → ℤ → ℤ → ℤ
  | 0, _, _, e => e
  | fuel + 1, n, d, e =>
    if n < d then findExpN fuel (2 * n) d (e - 1)
    else if 2 * d ≤ n then findExpN fuel n (2 * d) (e + 1)
    else e

/-- The exact rational value of the IEEE-754 binary64 nearest to `q`:
the significand is `|q|` scaled into 53 bits and rounded to nearest, ties to
even. -/
def roundFloat (q : ℚ) : ℚ :=
  if q = 0 then 0
  else
    let n : ℤ := (q.num.natAbs : ℤ)
    let d : ℤ := (q.den : ℤ)
    let e := findExpN 4400 n d 0
    let s := 52 - e
    let m :=
      if 0 ≤ s then roundHalfEvenInt (n * 2 ^ s.toNat) d
      else roundHalfEvenInt n (d * 2 ^ (-s).toNat)
    (if q < 0 then -1 else 1) * (m : ℚ) * (2 : ℚ) ^ (e - 52)

/-- A Python numeric value as stored for an `int | float` field: an exact
integer or a binary64 float (carried as its exact rational value). -/
inductive PyNum where
  | int : ℤ → PyNum
  | float : ℚ → PyNum
deriving DecidableEq

/-- Serialize a stored number back to a JSON number.  (Python re-emits a float
as the shortest decimal denoting the same binary64; we emit the float's exact
value, which denotes the same binary64.) -/
def PyNum.dump : PyNum → Json
  | .int n => .num (n : ℚ)
  | .float f => .num f

/-- A parsed timestamp.  pydantic parses ISO-8601 datetime text into a
datetime value and re-serializes it in normalized ISO form; we model the
stored datetime by that normalized text.  The normalization modelled here is
the separator normalization (a space or lowercase `t`/`z` is re-emitted as
`T`/`Z`); finer normalizations (offset/fraction rewriting, epoch-number
inputs) are outside the model, and the round-trip development only relies on
the canonical naive `YYYY-MM-DDTHH:MM:SS` core, on which pydantic v1 and v2
re-serialize the text unchanged. -/
structure PyDateTime where
  iso : String
deriving DecidableEq

/-- Normalization of one character of a datetime text: lax separators are
replaced by their canonical ISO spelling. -/
def normChar (c : Char) : Char :=
  if c = ' ' then 'T' else if c = 't' then 'T' else if c = 'z' then 'Z' else c

/-- Normalized ISO text: every lax separator replaced by its canonical
spelling. -/
def normIso (s : String) : String := ⟨s.data.map normChar⟩

/-- A canonical naive ISO-8601 timestamp `YYYY-MM-DDTHH:MM:SS` (19
characters, no offset, no fraction): on these both pydantic v1 and v2
re-serialize exactly the input text.  The normalization fixed-point conjunct
makes that textual stability explicit. -/
def isoCanon (s : String) : Bool :=
  (normIso s == s) &&
  (match s.data with
   | [y₁, y₂, y₃, y₄, a, m₁, m₂, b, d₁, d₂, t, h₁, h₂, c₁, n₁, n₂, c₂, e₁, e₂] =>
     y₁.isDigit && y₂.isDigit && y₃.isDigit && y₄.isDigit && a == '-' &&
     m₁.isDigit && m₂.isDigit && b == '-' && d₁.isDigit && d₂.isDigit &&
     t == 'T' && h₁.isDigit && h₂.isDigit && c₁ == ':' && n₁.isDigit &&
     n₂.isDigit && c₂ == ':' && e₁.isDigit && e₂.isDigit
   | _ => false)

theorem normIso_eq_of_isoCanon {s : String} (h : isoCanon s = true) :
    normIso s = s := by
  simp only [isoCanon, Bool.and_eq_true, beq_iff_eq] at h
  exact h.1

def PyDateTime.dump (d : PyDateTime) : Json := .str d.iso

/-! ## Primitive field parsers (pydantic scalar validation) -/

def parseStr : Json → Vd String
  | .str s => .ok s
  | _ => .err ["value is not a string"]

/-- Lax boolean validation as in pydantic (v1 `bool_validator`, v2 lax mode):
a JSON boolean, one of the recognized boolean strings (case-insensitive), or
the numbers 0/1. -/
def parseBool : Json → Vd Bool
  | .bool b => .ok b
  | .str s =>
    if s.toLower ∈ ["true", "yes", "on", "t", "y", "1"] then .ok true
    else if s.toLower ∈ ["false", "no", "off", "f", "n", "0"] then .ok false
    else .err ["value is not a boolean"]
  | .num q =>
    if q = 1 then .ok true
    else if q = 0 then .ok false
    else .err ["value is not a boolean"]
  | _ => .err ["value is not a boolean"]

/-- Accumulate a digit list into a natural number. -/
def natOfDigits (cs : List Char) : ℕ :=
  cs.foldl (fun a c => a * 10 + (c.toNat - 48)) 0

/-- Read a plain decimal numeral (optional sign, digits, optional fractional
digits): the result `(m, k)` denotes the value `m / 10 ^ k`, with `k = 0`
exactly when the text has no fractional part.  This is the textual number
form the wire actually uses; exotic Python-accepted spellings (scientific
notation, `"100."`, infinities) are outside the model. -/
def decNum? (s : String) : Option (ℤ × ℕ) :=
  let (sign, rest) :=
    match s.data with
    | '-' :: r => (true, r)
    | '+' :: r => (false, r)
    | r => (false, r)
  let ip := rest.takeWhile (fun c => c.isDigit)
  let rest₂ := rest.dropWhile (fun c => c.isDigit)
  if ip.isEmpty then none
  else
    match rest₂ with
    | [] => some ((if sign then -1 else 1) * (natOfDigits ip : ℤ), 0)
    | '.' :: fp =>
      if fp.isEmpty then none
      else if fp.all (fun c => c.isDigit) then
        some ((if sign then -1 else 1) *
          ((natOfDigits ip * 10 ^ fp.length + natOfDigits fp : ℕ) : ℤ), fp.length)
      else none
    | _ => none

/-- The rational value denoted by a decimal numeral reading `(m, k)`. -/
def decValue (m : ℤ) (k : ℕ) : ℚ := (m : ℚ) / (10 : ℚ) ^ k

/-- Validation of an `int | float` value: a JSON integer stays an exact `int`;
any other JSON number is a Python float, the nearest binary64.  Numeric text
is coerced as pydantic does for `int | float` (v1 tries `int(s)` then
`float(s)`, v2 lax coerces numeric strings): an integral numeral becomes an
exact `int`, a numeral with a fractional part becomes a float. -/
def parseNum : Json → Vd PyNum
  | .num q => .ok (if q.den = 1 then .int q.num else .float (roundFloat q))
  | .str s =>
    match decNum? s with
    | some (m, k) =>
      .ok (if k = 0 then .int m else .float (roundFloat (decValue m k)))
    | none => .err ["value is not a number"]
  | _ => .err ["value is not a number"]

def PyDateTime.parse : Json → Vd PyDateTime
  | .str s => .ok ⟨normIso s⟩
  | _ => .err ["value is not a datetime"]

/-- Validation of a free-form `dict` field (`metadata`): any JSON object is
accepted verbatim, nothing else is. -/
def parseDict : Json → Vd Json
  | .obj kvs => .ok (.obj kvs)
  | _ => .err ["value is not an object"]

/-- A closed-set enumeration member: the value must be a string belonging to
the member list, otherwise validation fails (no unknown/other fallback). -/
def enumParse (members : List String) : Json → Vd String
  | .str s => if s ∈ members then .ok s else .err ["value is not a valid enumeration member"]
  | _ => .err ["value is not a valid enumeration member"]

/-! ## Field combinators -/

/-- A mandatory field: absence is an error naming the field; a present value
is validated and errors are qualified with the field name. -/
def reqField {α : Type} (kvs : List (String × Json)) (k : String) (pv : Json → Vd α) : Vd α :=
  match jlookup kvs k with
  | none => .err [k]
  | some v => withPath k (pv v)

/-- An optional field with default `None`: absence (or an explicit null)
resolves to `none` without error. -/
def optField {α : Type} (kvs : List (String × Json)) (k : String) (pv : Json → Vd α) :
    Vd (Option α) :=
  match jlookup kvs k with
  | none => .ok none
  | some .null => .ok none
  | some v => withPath k ((Vd.ok some).ap (pv v))

/-- A list-valued field body: a JSON array validated elementwise, accumulating
the errors of every element. -/
def parseList {α : Type} (pv : Json → Vd α) : Json → Vd (List α)
  | .arr xs => Vd.seqList (xs.map pv)
  | _ => .err ["value is not a list"]

/-- A list field with default `[]` (as `PaymentsList.list`): absence resolves
to the empty list without error. -/
def optListField {α : Type} (kvs : List (String × Json)) (k : String) (pv : Json → Vd α) :
    Vd (List α) :=
  match jlookup kvs k with
  | none => .ok []
  | some v => withPath k (parseList pv v)

/-- Serialize an optional field (`None` becomes an explicit JSON null, as in a
pydantic `by_alias` dump without `exclude_none`). -/
def dumpOpt {α : Type} (f : α → Json) : Option α → Json
  | none => .null
  | some a => f a

/-! ## Enumerations

The enumeration classes live in the repository's `types/enum.py`, which is not
part of the provided sources; only their names and closed-set semantics are
given by the spec (payment lifecycle statuses including a succeeded and a
canceled state, receipt registration states, cancellation initiator and cause,
confirmation mechanisms).  Each is a closed member set of strings; an
enumeration value is a string validated against that set. -/

/-- Modelled from the spec: the payment lifecycle status members of
`PaymentStatus` in the missing `types/enum.py` (a pending state, a
waiting-for-capture state, the succeeded state and the canceled terminal
state named by the spec). -/
def paymentStatusMembers : List String :=
  ["pending", "waiting_for_capture", "succeeded", "canceled"]

structure PaymentStatus where
  val : String
deriving DecidableEq

def PaymentStatus.parse (j : Json) : Vd PaymentStatus :=
  (Vd.ok PaymentStatus.mk).ap (enumParse paymentStatusMembers j)

def PaymentStatus.dump (s : PaymentStatus) : Json := .str s.val

/-- Modelled from the spec: the receipt registration states of
`ReceiptRegistration` in the missing `types/enum.py`. -/
def receiptRegistrationMembers : List String :=
  ["pending", "succeeded", "canceled"]

structure ReceiptRegistration where
  val : String
deriving DecidableEq

def ReceiptRegistration.parse (j : Json) : Vd ReceiptRegistration :=
  (Vd.ok ReceiptRegistration.mk).ap (enumParse receiptRegistrationMembers j)

def ReceiptRegistration.dump (s : ReceiptRegistration) : Json := .str s.val

/-- Modelled from the spec: the cancellation initiators of `CancellationParty`
in the missing `types/enum.py` (who initiated the cancellation). -/
def cancellationPartyMembers : List String :=
  ["yoo_money", "payment_network", "merchant"]

structure CancellationParty where
  val : String
deriving DecidableEq

def CancellationParty.parse (j : Json) : Vd CancellationParty :=
  (Vd.ok CancellationParty.mk).ap (enumParse cancellationPartyMembers j)

def CancellationParty.dump (s : CancellationParty) : Json := .str s.val

/-- Modelled from the spec: the cancellation causes of `CancellationReason` in
the missing `types/enum.py` (enumerated cause of a canceled payment). -/
def cancellationReasonMembers : List String :=
  ["3d_secure_failed", "call_issuer", "canceled_by_merchant", "card_expired",
   "country_forbidden", "expired_on_capture", "expired_on_confirmation",
   "fraud_suspected", "general_decline", "identification_required",
   "insufficient_funds", "internal_timeout", "invalid_card_number",
   "invalid_csc", "issuer_unavailable", "payment_method_limit_exceeded",
   "payment_method_restricted", "permission_revoked",
   "unsupported_mobile_operator"]

structure CancellationReason where
  val : String
deriving DecidableEq

def CancellationReason.parse (j : Json) : Vd CancellationReason :=
  (Vd.ok CancellationReason.mk).ap (enumParse cancellationReasonMembers j)

def CancellationReason.dump (s : CancellationReason) : Json := .str s.val

/-- Modelled from the spec: the confirmation mechanisms of `ConfirmationType`
in the missing `types/enum.py` (redirect-based and other confirmation
scenarios). -/
def confirmationTypeMembers : List String :=
  ["embedded", "external", "mobile_application", "qr", "redirect"]

structure ConfirmationType where
  val : String
deriving DecidableEq

def ConfirmationType.parse (j : Json) : Vd ConfirmationType :=
  (Vd.ok ConfirmationType.mk).ap (enumParse confirmationTypeMembers j)

def ConfirmationType.dump (s : ConfirmationType) : Json := .str s.val

/-! ## Entity models (`types/payment.py`)

One Lean structure per pydantic model, fields in declaration order, with its
construction-time validation (`parse`, reading wire names for aliased fields)
and its `by_alias` serialization (`dump`, re-emitting wire names). -/

structure Confirmation where
  type : ConfirmationType
  enforce : Option Bool
  locale : Option String
  return_url : Option String
  url : Option String
deriving DecidableEq

def Confirmation.parse : Json → Vd Confirmation
  | .obj kvs =>
    (Vd.ok Confirmation.mk).ap (reqField kvs "type" ConfirmationType.parse)
      |>.ap (optField kvs "enforce" parseBool)
      |>.ap (optField kvs "locale" parseStr)
      |>.ap (optField kvs "return_url" parseStr)
      |>.ap (optField kvs "confirmation_url" parseStr)
  | _ => .err ["value is not an object"]

def Confirmation.dump (c : Confirmation) : Json :=
  .obj [("type", c.type.dump),
        ("enforce", dumpOpt Json.bool c.enforce),
        ("locale", dumpOpt Json.str c.locale),
        ("return_url", dumpOpt Json.str c.return_url),
        ("confirmation_url", dumpOpt Json.str c.url)]

structure PaymentAmount where
  value : PyNum
  currency : String
deriving DecidableEq

def PaymentAmount.parse : Json → Vd PaymentAmount
  | .obj kvs =>
    (Vd.ok PaymentAmount.mk).ap (reqField kvs "value" parseNum)
      |>.ap (reqField kvs "currency" parseStr)
  | _ => .err ["value is not an object"]

def PaymentAmount.dump (a : PaymentAmount) : Json :=
  .obj [("value", a.value.dump), ("currency", .str a.currency)]

structure Recipient where
  account_id : String
  gateway_id : String
deriving DecidableEq

def Recipient.parse : Json → Vd Recipient
  | .obj kvs =>
    (Vd.ok Recipient.mk).ap (reqField kvs "account_id" parseStr)
      |>.ap (reqField kvs "gateway_id" parseStr)
  | _ => .err ["value is not an object"]

def Recipient.dump (r : Recipient) : Json :=
  .obj [("account_id", .str r.account_id), ("gateway_id", .str r.gateway_id)]

structure PayerBankDetails where
  full_name : String
  short_name : String
  address : String
  inn : String
  bank_name : String
  bank_branch : String
  bank_bik : String
  bank_account : String
  kpp : Option String
deriving DecidableEq

def PayerBankDetails.parse : Json → Vd PayerBankDetails
  | .obj kvs =>
    (Vd.ok PayerBankDetails.mk).ap (reqField kvs "full_name" parseStr)
      |>.ap (reqField kvs "short_name" parseStr)
      |>.ap (reqField kvs "address" parseStr)
      |>.ap (reqField kvs "inn" parseStr)
      |>.ap (reqField kvs "bank_name" parseStr)
      |>.ap (reqField kvs "bank_branch" parseStr)
      |>.ap (reqField kvs "bank_bik" parseStr)
      |>.ap (reqField kvs "bank_account" parseStr)
      |>.ap (optField kvs "kpp" parseStr)
  | _ => .err ["value is not an object"]

def PayerBankDetails.dump (b : PayerBankDetails) : Json :=
  .obj [("full_name", .str b.full_name),
        ("short_name", .str b.short_name),
        ("address", .str b.address),
        ("inn", .str b.inn),
        ("bank_name", .str b.bank_name),
        ("bank_branch", .str b.bank_branch),
        ("bank_bik", .str b.bank_bik),
        ("bank_account", .str b.bank_account),
        ("kpp", dumpOpt Json.str b.kpp)]

structure VatData where
  type : String
  amount : Option PaymentAmount
  rate : Option String
deriving DecidableEq

def VatData.parse : Json → Vd VatData
  | .obj kvs =>
    (Vd.ok VatData.mk).ap (reqField kvs "type" parseStr)
      |>.ap (optField kvs "amount" PaymentAmount.parse)
      |>.ap (optField kvs "rate" parseStr)
  | _ => .err ["value is not an object"]

def VatData.dump (v : VatData) : Json :=
  .obj [("type", .str v.type),
        ("amount", dumpOpt PaymentAmount.dump v.amount),
        ("rate", dumpOpt Json.str v.rate)]

structure CardInfo where
  first_six : Option String
  last_four : String
  expiry_year : String
  expiry_month : String
  card_type : String
  card_country : Option String
  bank_name : Option String
  source : Option String
deriving DecidableEq

def CardInfo.parse : Json → Vd CardInfo
  | .obj kvs =>
    (Vd.ok CardInfo.mk).ap (optField kvs "first6" parseStr)
      |>.ap (reqField kvs "last4" parseStr)
      |>.ap (reqField kvs "expiry_year" parseStr)
      |>.ap (reqField kvs "expiry_month" parseStr)
      |>.ap (reqField kvs "card_type" parseStr)
      |>.ap (optField kvs "issuer_country" parseStr)
      |>.ap (optField kvs "issuer_name" parseStr)
      |>.ap (optField kvs "source" parseStr)
  | _ => .err ["value is not an object"]

def CardInfo.dump (c : CardInfo) : Json :=
  .obj [("first6", dumpOpt Json.str c.first_six),
        ("last4", .str c.last_four),
        ("expiry_year", .str c.expiry_year),
        ("expiry_month", .str c.expiry_month),
        ("card_type", .str c.card_type),
        ("issuer_country", dumpOpt Json.str c.card_country),
        ("issuer_name", dumpOpt Json.str c.bank_name),
        ("source", dumpOpt Json.str c.source)]

structure PaymentMethod where
  type : String
  id : String
  saved : Bool
  title : Option String
  login : Option String
  card : Option CardInfo
  phone : Option String
  payer_bank_details : Option PayerBankDetails
  payment_purpose : Option String
  vat_data : Option VatData
  account_number : Option String
deriving DecidableEq

def PaymentMethod.parse : Json → Vd PaymentMethod
  | .obj kvs =>
    (Vd.ok PaymentMethod.mk).ap (reqField kvs "type" parseStr)
      |>.ap (reqField kvs "id" parseStr)
      |>.ap (reqField kvs "saved" parseBool)
      |>.ap (optField kvs "title" parseStr)
      |>.ap (optField kvs "login" parseStr)
      |>.ap (optField kvs "card" CardInfo.parse)
      |>.ap (optField kvs "phone" parseStr)
      |>.ap (optField kvs "payer_bank_details" PayerBankDetails.parse)
      |>.ap (optField kvs "payment_purpose" parseStr)
      |>.ap (optField kvs "vat_data" VatData.parse)
      |>.ap (optField kvs "account_number" parseStr)
  | _ => .err ["value is not an object"]

def PaymentMethod.dump (m : PaymentMethod) : Json :=
  .obj [("type", .str m.type),
        ("id", .str m.id),
        ("saved", .bool m.saved),
        ("title", dumpOpt Json.str m.title),
        ("login", dumpOpt Json.str m.login),
        ("card", dumpOpt CardInfo.dump m.card),
        ("phone", dumpOpt Json.str m.phone),
        ("payer_bank_details", dumpOpt PayerBankDetails.dump m.payer_bank_details),
        ("payment_purpose", dumpOpt Json.str m.payment_purpose),
        ("vat_data", dumpOpt VatData.dump m.vat_data),
        ("account_number", dumpOpt Json.str m.account_number)]

structure CancellationDetails where
  party : CancellationParty
  reason : CancellationReason
deriving DecidableEq

def CancellationDetails.parse : Json → Vd CancellationDetails
  | .obj kvs =>
    (Vd.ok CancellationDetails.mk).ap (reqField kvs "party" CancellationParty.parse)
      |>.ap (reqField kvs "reason" CancellationReason.parse)
  | _ => .err ["value is not an object"]

def CancellationDetails.dump (c : CancellationDetails) : Json :=
  .obj [("party", c.party.dump), ("reason", c.reason.dump)]

structure ThreeDSInfo where
  applied : Bool
deriving DecidableEq

def ThreeDSInfo.parse : Json → Vd ThreeDSInfo
  | .obj kvs => (Vd.ok ThreeDSInfo.mk).ap (reqField kvs "applied" parseBool)
  | _ => .err ["value is not an object"]

def ThreeDSInfo.dump (t : ThreeDSInfo) : Json :=
  .obj [("applied", .bool t.applied)]

structure AuthorizationDetails where
  transaction_identifier : Option String
  authorization_code : Option String
  three_d_secure : ThreeDSInfo
deriving DecidableEq

def AuthorizationDetails.parse : Json → Vd AuthorizationDetails
  | .obj kvs =>
    (Vd.ok AuthorizationDetails.mk).ap (optField kvs "rrn" parseStr)
      |>.ap (optField kvs "auth_code" parseStr)
      |>.ap (reqField kvs "three_d_secure" ThreeDSInfo.parse)
  | _ => .err ["value is not an object"]

def AuthorizationDetails.dump (a : AuthorizationDetails) : Json :=
  .obj [("rrn", dumpOpt Json.str a.transaction_identifier),
        ("auth_code", dumpOpt Json.str a.authorization_code),
        ("three_d_secure", a.three_d_secure.dump)]

/-- `Transfer.fee_amount` is declared with type `PaymentAmount` but default
`None` (wire name `platform_fee_amount`); at runtime the field is optional:
absence resolves to `None` rather than raising a missing-field error. -/
structure Transfer where
  account_id : String
  amount : PaymentAmount
  status : PaymentStatus
  fee_amount : Option PaymentAmount
  description : Option String
  metadata : Option Json

def Transfer.parse : Json → Vd Transfer
  | .obj kvs =>
    (Vd.ok Transfer.mk).ap (reqField kvs "account_id" parseStr)
      |>.ap (reqField kvs "amount" PaymentAmount.parse)
      |>.ap (reqField kvs "status" PaymentStatus.parse)
      |>.ap (optField kvs "platform_fee_amount" PaymentAmount.parse)
      |>.ap (optField kvs "description" parseStr)
      |>.ap (optField kvs "metadata" parseDict)
  | _ => .err ["value is not an object"]

def Transfer.dump (t : Transfer) : Json :=
  .obj [("account_id", .str t.account_id),
        ("amount", t.amount.dump),
        ("status", t.status.dump),
        ("platform_fee_amount", dumpOpt PaymentAmount.dump t.fee_amount),
        ("description", dumpOpt Json.str t.description),
        ("metadata", dumpOpt id t.metadata)]

structure Settlement where
  type : String
  amount : PaymentAmount
deriving DecidableEq

def Settlement.parse : Json → Vd Settlement
  | .obj kvs =>
    (Vd.ok Settlement.mk).ap (reqField kvs "type" parseStr)
      |>.ap (reqField kvs "amount" PaymentAmount.parse)
  | _ => .err ["value is not an object"]

def Settlement.dump (s : Settlement) : Json :=
  .obj [("type", .str s.type), ("amount", s.amount.dump)]

/-- As written in the source, `Deal.settlements` is annotated
`List[PaymentAmount]` — each element is validated as a PaymentAmount
(`value` + `currency`), not as a Settlement, although the Settlement model is
declared immediately above. -/
structure Deal where
  id : String
  settlements : List PaymentAmount
deriving DecidableEq

def Deal.parse : Json → Vd Deal
  | .obj kvs =>
    (Vd.ok Deal.mk).ap (reqField kvs "id" parseStr)
      |>.ap (reqField kvs "settlements" (parseList PaymentAmount.parse))
  | _ => .err ["value is not an object"]

def Deal.dump (d : Deal) : Json :=
  .obj [("id", .str d.id),
        ("settlements", .arr (d.settlements.map PaymentAmount.dump))]

structure Payment where
  id : String
  status : PaymentStatus
  amount : PaymentAmount
  income_amount : Option PaymentAmount
  description : Option String
  recipient : Recipient
  payment_method : Option PaymentMethod
  captured_at : Option PyDateTime
  created_at : PyDateTime
  expires_at : Option PyDateTime
  confirmation : Option Confirmation
  test : Bool
  refunded_amount : Option PaymentAmount
  paid : Bool
  refundable : Bool
  receipt_registration : Option ReceiptRegistration
  metadata : Option Json
  cancellation_details : Option CancellationDetails
  authorization_details : Option AuthorizationDetails
  transfers : Option (List Transfer)
  deal : Option Deal
  merchant_customer_id : Option String

def Payment.parse : Json → Vd Payment
  | .obj kvs =>
    (Vd.ok Payment.mk).ap (reqField kvs "id" parseStr)
      |>.ap (reqField kvs "status" PaymentStatus.parse)
      |>.ap (reqField kvs "amount" PaymentAmount.parse)
      |>.ap (optField kvs "income_amount" PaymentAmount.parse)
      |>.ap (optField kvs "description" parseStr)
      |>.ap (reqField kvs "recipient" Recipient.parse)
      |>.ap (optField kvs "payment_method" PaymentMethod.parse)
      |>.ap (optField kvs "captured_at" PyDateTime.parse)
      |>.ap (reqField kvs "created_at" PyDateTime.parse)
      |>.ap (optField kvs "expires_at" PyDateTime.parse)
      |>.ap (optField kvs "confirmation" Confirmation.parse)
      |>.ap (reqField kvs "test" parseBool)
      |>.ap (optField kvs "refunded_amount" PaymentAmount.parse)
      |>.ap (reqField kvs "paid" parseBool)
      |>.ap (reqField kvs "refundable" parseBool)
      |>.ap (optField kvs "receipt_registration" ReceiptRegistration.parse)
      |>.ap (optField kvs "metadata" parseDict)
      |>.ap (optField kvs "cancellation_details" CancellationDetails.parse)
      |>.ap (optField kvs "authorization_details" AuthorizationDetails.parse)
      |>.ap (optField kvs "transfers" (parseList Transfer.parse))
      |>.ap (optField kvs "deal" Deal.parse)
      |>.ap (optField kvs "merchant_customer_id" parseStr)
  | _ => .err ["value is not an object"]

def Payment.dump (p : Payment) : Json :=
  .obj [("id", .str p.id),
        ("status", p.status.dump),
        ("amount", p.amount.dump),
        ("income_amount", dumpOpt PaymentAmount.dump p.income_amount),
        ("description", dumpOpt Json.str p.description),
        ("recipient", p.recipient.dump),
        ("payment_method", dumpOpt PaymentMethod.dump p.payment_method),
        ("captured_at", dumpOpt PyDateTime.dump p.captured_at),
        ("created_at", p.created_at.dump),
        ("expires_at", dumpOpt PyDateTime.dump p.expires_at),
        ("confirmation", dumpOpt Confirmation.dump p.confirmation),
        ("test", .bool p.test),
        ("refunded_amount", dumpOpt PaymentAmount.dump p.refunded_amount),
        ("paid", .bool p.paid),
        ("refundable", .bool p.refundable),
        ("receipt_registration", dumpOpt ReceiptRegistration.dump p.receipt_registration),
        ("metadata", dumpOpt (fun j => j) p.metadata),
        ("cancellation_details", dumpOpt CancellationDetails.dump p.cancellation_details),
        ("authorization_details", dumpOpt AuthorizationDetails.dump p.authorization_details),
        ("transfers", dumpOpt (fun l => Json.arr (l.map Transfer.dump)) p.transfers),
        ("deal", dumpOpt Deal.dump p.deal),
        ("merchant_customer_id", dumpOpt Json.str p.merchant_customer_id)]

structure PaymentsList where
  list : List Payment
  cursor : Option String

def PaymentsList.parse : Json → Vd PaymentsList
  | .obj kvs =>
    (Vd.ok PaymentsList.mk).ap (optListField kvs "items" Payment.parse)
      |>.ap (optField kvs "cursor" parseStr)
  | _ => .err ["value is not an object"]

def PaymentsList.dump (l : PaymentsList) : Json :=
  .obj [("items", .arr (l.list.map Payment.dump)),
        ("cursor", dumpOpt Json.str l.cursor)]

/-! ## Round-trip comparison

`covers o i` states that the re-serialized JSON `o` reproduces every
wire-field/value pair of the input JSON `i`: primitives must match exactly,
arrays pointwise, and every key/value pair of an input object must occur in
the output object (the output may carry extra keys, e.g. explicit nulls for
optional fields the input omitted). -/

mutual

def covers (o : Json) : Json → Bool
  | .null => match o with | .null => true | _ => false
  | .bool b => match o with | .bool b₂ => b₂ == b | _ => false
  | .num q => match o with | .num q₂ => decide (q₂ = q) | _ => false
  | .str s => match o with | .str s₂ => s₂ == s | _ => false
  | .arr xs => match o with | .arr ys => coversList ys xs | _ => false
  | .obj kvs => match o with | .obj os => coversPairs os kvs | _ => false

def coversList (ys : List Json) : List Json → Bool
  | [] => ys.isEmpty
  | x :: xs =>
    match ys with
    | [] => false
    | y :: ys₂ => covers y x && coversList ys₂ xs

def coversPairs (os : List (String × Json)) : List (String × Json) → Bool
  | [] => true
  | (k, v) :: rest =>
    (match jlookup os k with
     | some v₂ => covers v₂ v
     | none => false) && coversPairs os rest

end

/-! A canonically-shaped free-form JSON value (as stored in `metadata`): every
object has duplicate-free keys and every number is integral.  (Python's JSON
parser turns non-integral numbers into binary64 floats before the model layer
sees them; restricting canonical payloads to integral numbers keeps the
modelled values exact.) -/
mutual

def canonJson : Json → Bool
  | .null => true
  | .bool _ => true
  | .num q => q.den == 1
  | .str _ => true
  | .arr xs => canonList xs
  | .obj kvs => nodupKeys kvs && canonPairs kvs

def canonList : List Json → Bool
  | [] => true
  | x :: xs => canonJson x && canonList xs

def canonPairs : List (String × Json) → Bool
  | [] => true
  | (_, v) :: rest => canonJson v && canonPairs rest

end

/-! ## Lookup lemmas -/

theorem hasKey_of_mem {kvs : List (String × Json)} {k : String} {v : Json}
    (h : (k, v) ∈ kvs) : hasKey kvs k = true := by
  induction kvs with
  | nil => simp at h
  | cons kv rest ih =>
    obtain ⟨k₁, v₁⟩ := kv
    rcases List.mem_cons.mp h with h₁ | h₁
    · simp_all [hasKey, jlookup]
    · simp only [hasKey, jlookup]
      split
      · simp
      · exact ih h₁

theorem jlookup_none_of_not_hasKey {kvs : List (String × Json)} {k : String}
    (h : hasKey kvs k = false) : jlookup kvs k = none := by
  simpa [hasKey, Option.isSome_iff_exists] using h

theorem jlookup_eq_some_of_mem {kvs : List (String × Json)} {k : String} {v : Json}
    (hnd : nodupKeys kvs = true) (h : (k, v) ∈ kvs) : jlookup kvs k = some v := by
  induction kvs with
  | nil => simp at h
  | cons kv rest ih =>
    obtain ⟨k₁, v₁⟩ := kv
    simp only [nodupKeys, Bool.and_eq_true, Bool.not_eq_true'] at hnd
    rcases List.mem_cons.mp h with h₁ | h₁
    · obtain ⟨rfl, rfl⟩ := Prod.mk.injEq .. ▸ Prod.mk.inj h₁
      simp [jlookup]
    · simp only [jlookup]
      split
      · rename_i heq
        subst heq
        exact absurd (hasKey_of_mem h₁) (by simp [hnd.1])
      · exact ih hnd.2 h₁

theorem jlookup_none_of_not_mem {kvs : List (String × Json)} {k : String}
    (h : k ∉ kvs.map Prod.fst) : jlookup kvs k = none := by
  induction kvs with
  | nil => rfl
  | cons kv rest ih =>
    obtain ⟨k₁, v₁⟩ := kv
    simp only [List.map_cons, List.mem_cons] at h
    push_neg at h
    simp only [jlookup, if_neg h.1]
    exact ih h.2

/-! ## Covers lemmas -/

theorem coversPairs_intro {os kvs : List (String × Json)}
    (h : ∀ kv ∈ kvs, ∃ v₂, jlookup os kv.1 = some v₂ ∧ covers v₂ kv.2 = true) :
    coversPairs os kvs = true := by
  induction kvs with
  | nil => rfl
  | cons kv rest ih =>
    obtain ⟨k, v⟩ := kv
    obtain ⟨v₂, hl, hc⟩ := h (k, v) (List.mem_cons_self ..)
    simp only [coversPairs, hl, hc, Bool.true_and]
    exact ih fun kv hkv => h kv (List.mem_cons_of_mem _ hkv)

mutual

theorem covers_refl : ∀ v, canonJson v = true → covers v v = true
  | .null, _ => rfl
  | .bool b, _ => by simp [covers]
  | .num q, _ => by simp [covers]
  | .str s, _ => by simp [covers]
  | .arr xs, h => by
    simpa [covers] using coversList_refl xs (by simpa [canonJson] using h)
  | .obj kvs, h => by
    have h' : nodupKeys kvs = true ∧ canonPairs kvs = true := by
      simpa [canonJson, Bool.and_eq_true] using h
    simp only [covers]
    exact coversPairs_intro fun kv hkv =>
      ⟨kv.2, jlookup_eq_some_of_mem h'.1 (by simpa using hkv),
        canonPairs_covers kvs h'.2 kv hkv⟩

theorem coversList_refl : ∀ xs, canonList xs = true → coversList xs xs = true
  | [], _ => rfl
  | x :: xs, h => by
    have h' : canonJson x = true ∧ canonList xs = true := by
      simpa [canonList, Bool.and_eq_true] using h
    simp only [coversList, Bool.and_eq_true]
    exact ⟨covers_refl x h'.1, coversList_refl xs h'.2⟩

theorem canonPairs_covers :
    ∀ kvs, canonPairs kvs = true → ∀ kv ∈ kvs, covers kv.2 kv.2 = true
  | [], _, kv, hkv => by simp at hkv
  | (k, v) :: rest, h, kv, hkv => by
    have h' : canonJson v = true ∧ canonPairs rest = true := by
      simpa [canonPairs, Bool.and_eq_true] using h
    rcases List.mem_cons.mp hkv with h₁ | h₁
    · subst h₁
      exact covers_refl v h'.1
    · exact canonPairs_covers rest h'.2 kv h₁

end

/-! ## Field inversion lemmas -/

theorem reqField_ok {α : Type} {kvs : List (String × Json)} {k : String}
    {pv : Json → Vd α} {a : α} (h : reqField kvs k pv = .ok a) :
    ∃ v, jlookup kvs k = some v ∧ pv v = .ok a := by
  unfold reqField at h
  split at h
  · simp at h
  · rename_i v hl
    exact ⟨v, hl, withPath_ok.mp h⟩

theorem reqField_ok_of_lookup {α : Type} {kvs : List (String × Json)} {k : String}
    {pv : Json → Vd α} {a : α} {v : Json} (hl : jlookup kvs k = some v)
    (h : reqField kvs k pv = .ok a) : pv v = .ok a := by
  obtain ⟨v₂, hl₂, hp⟩ := reqField_ok h
  rw [hl] at hl₂
  exact Option.some.inj hl₂ ▸ hp

theorem optField_ok_of_lookup {α : Type} {kvs : List (String × Json)} {k : String}
    {pv : Json → Vd α} {o : Option α} {v : Json} (hl : jlookup kvs k = some v)
    (h : optField kvs k pv = .ok o) :
    (v = .null ∧ o = none) ∨ ∃ a, pv v = .ok a ∧ o = some a := by
  unfold optField at h
  rw [hl] at h
  match v, h with
  | .null, h => exact Or.inl ⟨rfl, by simpa using h.symm⟩
  | .bool b, h | .num q, h | .str s, h | .arr xs, h | .obj kvs₂, h =>
    refine Or.inr ?_
    replace h := withPath_ok.mp h
    obtain ⟨g, a, hg, ha, hb⟩ := Vd.ap_ok h
    exact ⟨a, ha, by simp_all⟩

/-! ## Shape predicates

For each model, `shape` delimits the payloads quantified over by the
round-trip theorem: a JSON object with duplicate-free keys, every key a
recognized wire name of that model, nested values shaped for their nested
model (or null), integral monetary numbers, and canonical metadata. -/

/-- The value is a JSON number with an integral value (the canonical wire
form of a monetary amount: not a textual numeral, not a float-normalized
decimal). -/
def numIs : Json → Bool
  | .num q => q.den == 1
  | _ => false

/-- The value is a JSON string (the canonical wire form of a textual field;
excludes the coerced representations pydantic v1 would also accept). -/
def strIs : Json → Bool
  | .str _ => true
  | _ => false

/-- The value is a JSON boolean (the canonical wire form of a flag; excludes
the lax string/number spellings pydantic coerces). -/
def boolIs : Json → Bool
  | .bool _ => true
  | _ => false

/-- The value is canonical ISO datetime text (re-serialized unchanged). -/
def dtOK : Json → Bool
  | .str s => isoCanon s
  | _ => false

def nullOr (f : Json → Bool) : Json → Bool
  | .null => true
  | v => f v

def listShape (P : Json → Bool) : Json → Bool
  | .arr xs => xs.all P
  | _ => true

def objShape (keyOK : String → Bool) (valOK : String → Json → Bool) : Json → Bool
  | .obj kvs => nodupKeys kvs && kvs.all (fun kv => keyOK kv.1 && valOK kv.1 kv.2)
  | _ => false

/-! ## Per-type covers lemmas -/

theorem covers_parseStr {v : Json} {s : String} (h : parseStr v = .ok s) :
    covers (.str s) v = true := by
  cases v <;> simp_all [parseStr, covers]

theorem covers_parseBool {v : Json} {b : Bool} (h : parseBool v = .ok b)
    (hint : nullOr boolIs v = true) : covers (.bool b) v = true := by
  cases v <;> simp_all [parseBool, nullOr, boolIs, covers]

theorem covers_parseDT {v : Json} {d : PyDateTime} (h : PyDateTime.parse v = .ok d)
    (hint : nullOr dtOK v = true) : covers d.dump v = true := by
  cases v <;> simp_all [PyDateTime.parse, nullOr, dtOK]
  subst h
  simp [PyDateTime.dump, covers, normIso_eq_of_isoCanon hint]

theorem covers_parseNum {v : Json} {n : PyNum} (h : parseNum v = .ok n)
    (hint : nullOr numIs v = true) : covers n.dump v = true := by
  cases v <;> simp_all [parseNum, nullOr, numIs]
  rename_i q
  have hq : (q.num : ℚ) = q := by
    have hd := Rat.num_div_den q
    rw [hint] at hd
    simpa using hd
  subst h
  simp [hint, PyNum.dump, covers, hq]

theorem covers_parseDict {v j : Json} (h : parseDict v = .ok j)
    (hc : canonJson v = true) : covers j v = true := by
  cases v <;> simp_all [parseDict]
  exact covers_refl _ hc

theorem covers_enumParse {ms : List String} {v : Json} {s : String}
    (h : enumParse ms v = .ok s) : covers (.str s) v = true := by
  cases v <;> simp_all [enumParse, covers]
  split at h <;> simp_all

/-- Lift a covers lemma over an optional field: the dumped optional value
covers whatever stood at the wire key (null stays null, a present value is
covered by the base lemma). -/
theorem covers_optField {α : Type} {kvs : List (String × Json)} {k : String}
    {pv : Json → Vd α} {df : α → Json} {o : Option α} {v : Json}
    (hl : jlookup kvs k = some v) (h : optField kvs k pv = .ok o)
    (hsub : ∀ a, pv v = .ok a → covers (df a) v = true) :
    covers (dumpOpt df o) v = true := by
  rcases optField_ok_of_lookup hl h with ⟨rfl, rfl⟩ | ⟨a, hp, rfl⟩
  · rfl
  · exact hsub a hp

theorem seqList_ok {α : Type} {l : List (Vd α)} {as : List α}
    (h : Vd.seqList l = .ok as) :
    List.Forall₂ (fun x a => x = .ok a) l as := by
  induction l generalizing as with
  | nil =>
    simp only [Vd.seqList] at h
    cases h
    exact List.Forall₂.nil
  | cons x xs ih =>
    simp only [Vd.seqList] at h
    obtain ⟨g, a₂, hg, ha₂, hb⟩ := Vd.ap_ok h
    obtain ⟨g₂, a₁, hg₂, ha₁, hb₂⟩ := Vd.ap_ok hg
    cases hg₂
    subst hb hb₂
    exact List.Forall₂.cons ha₁ (ih ha₂)

theorem covers_parseList {α : Type} {pv : Json → Vd α} {df : α → Json}
    {P : Json → Bool} {v : Json} {as : List α}
    (h : parseList pv v = .ok as) (hP : listShape P v = true)
    (hsub : ∀ x a, pv x = .ok a → P x = true → covers (df a) x = true) :
    covers (.arr (as.map df)) v = true := by
  cases v <;> simp_all [parseList]
  rename_i xs
  have hf := seqList_ok h
  rw [List.forall₂_map_left_iff] at hf
  simp only [covers]
  clear h
  induction hf with
  | nil => rfl
  | cons hxa _ ih =>
    rename_i x a xs₂ as₂ _
    simp only [listShape, List.all_cons, Bool.and_eq_true] at hP
    simp only [List.map_cons, coversList, Bool.and_eq_true]
    exact ⟨hsub x a hxa hP.1, ih (by simp [listShape, hP.2])⟩

/-- Generic covers lemma for the enumeration models (all are a string wrapper
whose dump re-emits the stored member string). -/
theorem covers_enumModel {α : Type} {mk : String → α} {val : α → String}
    (hmv : ∀ s, val (mk s) = s) {ms : List String} {v : Json} {x : α}
    (h : (Vd.ok mk).ap (enumParse ms v) = .ok x) :
    covers (.str (val x)) v = true := by
  obtain ⟨g, a, hg, ha, hb⟩ := Vd.ap_ok h
  cases hg
  subst hb
  rw [hmv]
  exact covers_enumParse ha

/-! ## Wire-name shapes of the models -/

def Confirmation.shape : Json → Bool :=
  objShape
    (fun k => k == "type" || k == "enforce" || k == "locale" || k == "return_url" ||
      k == "confirmation_url")
    (fun k v => if k == "enforce" then nullOr boolIs v else nullOr strIs v)

def PaymentAmount.shape : Json → Bool :=
  objShape (fun k => k == "value" || k == "currency")
    (fun k v => if k == "value" then nullOr numIs v else nullOr strIs v)

def Recipient.shape : Json → Bool :=
  objShape (fun k => k == "account_id" || k == "gateway_id") (fun _ v => nullOr strIs v)

def PayerBankDetails.shape : Json → Bool :=
  objShape
    (fun k => k == "full_name" || k == "short_name" || k == "address" || k == "inn" ||
      k == "bank_name" || k == "bank_branch" || k == "bank_bik" || k == "bank_account" ||
      k == "kpp")
    (fun _ v => nullOr strIs v)

def VatData.shape : Json → Bool :=
  objShape (fun k => k == "type" || k == "amount" || k == "rate")
    (fun k v => if k == "amount" then nullOr PaymentAmount.shape v else nullOr strIs v)

def CardInfo.shape : Json → Bool :=
  objShape
    (fun k => k == "first6" || k == "last4" || k == "expiry_year" || k == "expiry_month" ||
      k == "card_type" || k == "issuer_country" || k == "issuer_name" || k == "source")
    (fun _ v => nullOr strIs v)

def PaymentMethod.shape : Json → Bool :=
  objShape
    (fun k => k == "type" || k == "id" || k == "saved" || k == "title" || k == "login" ||
      k == "card" || k == "phone" || k == "payer_bank_details" || k == "payment_purpose" ||
      k == "vat_data" || k == "account_number")
    (fun k v =>
      if k == "saved" then nullOr boolIs v
      else if k == "card" then nullOr CardInfo.shape v
      else if k == "payer_bank_details" then nullOr PayerBankDetails.shape v
      else if k == "vat_data" then nullOr VatData.shape v
      else nullOr strIs v)

def CancellationDetails.shape : Json → Bool :=
  objShape (fun k => k == "party" || k == "reason") (fun _ v => nullOr strIs v)

def ThreeDSInfo.shape : Json → Bool :=
  objShape (fun k => k == "applied") (fun _ v => nullOr boolIs v)

def AuthorizationDetails.shape : Json → Bool :=
  objShape (fun k => k == "rrn" || k == "auth_code" || k == "three_d_secure")
    (fun k v =>
      if k == "three_d_secure" then nullOr ThreeDSInfo.shape v else nullOr strIs v)

def Transfer.shape : Json → Bool :=
  objShape
    (fun k => k == "account_id" || k == "amount" || k == "status" ||
      k == "platform_fee_amount" || k == "description" || k == "metadata")
    (fun k v =>
      if k == "amount" then nullOr PaymentAmount.shape v
      else if k == "platform_fee_amount" then nullOr PaymentAmount.shape v
      else if k == "metadata" then nullOr canonJson v
      else nullOr strIs v)

def Deal.shape : Json → Bool :=
  objShape (fun k => k == "id" || k == "settlements")
    (fun k v =>
      if k == "settlements" then listShape PaymentAmount.shape v else nullOr strIs v)

def Payment.shape : Json → Bool :=
  objShape
    (fun k => k == "id" || k == "status" || k == "amount" || k == "income_amount" ||
      k == "description" || k == "recipient" || k == "payment_method" ||
      k == "captured_at" || k == "created_at" || k == "expires_at" ||
      k == "confirmation" || k == "test" || k == "refunded_amount" || k == "paid" ||
      k == "refundable" || k == "receipt_registration" || k == "metadata" ||
      k == "cancellation_details" || k == "authorization_details" || k == "transfers" ||
      k == "deal" || k == "merchant_customer_id")
    (fun k v =>
      if k == "amount" then nullOr PaymentAmount.shape v
      else if k == "income_amount" then nullOr PaymentAmount.shape v
      else if k == "recipient" then nullOr Recipient.shape v
      else if k == "payment_method" then nullOr PaymentMethod.shape v
      else if k == "confirmation" then nullOr Confirmation.shape v
      else if k == "refunded_amount" then nullOr PaymentAmount.shape v
      else if k == "metadata" then nullOr canonJson v
      else if k == "cancellation_details" then nullOr CancellationDetails.shape v
      else if k == "authorization_details" then nullOr AuthorizationDetails.shape v
      else if k == "transfers" then listShape Transfer.shape v
      else if k == "deal" then nullOr Deal.shape v
      else if k == "captured_at" then nullOr dtOK v
      else if k == "created_at" then nullOr dtOK v
      else if k == "expires_at" then nullOr dtOK v
      else if k == "test" then nullOr boolIs v
      else if k == "paid" then nullOr boolIs v
      else if k == "refundable" then nullOr boolIs v
      else nullOr strIs v)

/-! ## Round-trip lemmas: parsing then dumping covers the input payload -/

theorem paymentAmountParseCovers {j : Json} {x : PaymentAmount}
    (hs : PaymentAmount.shape j = true) (hp : PaymentAmount.parse j = .ok x) :
    covers (PaymentAmount.dump x) j = true := by
  match j with
  | .null | .bool _ | .num _ | .str _ | .arr _ => simp [PaymentAmount.shape, objShape] at hs
  | .obj kvs =>
    simp only [PaymentAmount.shape, objShape, Bool.and_eq_true, List.all_eq_true] at hs
    obtain ⟨hnd, hall⟩ := hs
    simp only [PaymentAmount.parse] at hp
    obtain ⟨g₁, a₂, h₁, hcur, hx⟩ := Vd.ap_ok hp
    obtain ⟨g₀, a₁, h₀, hval, hg⟩ := Vd.ap_ok h₁
    injection h₀ with h₀
    subst h₀ hg hx
    simp only [PaymentAmount.dump, covers]
    apply coversPairs_intro
    intro kv hkv
    obtain ⟨k, v⟩ := kv
    have hkfacts := hall (k, v) hkv
    simp only [Bool.and_eq_true, Bool.or_eq_true, beq_iff_eq] at hkfacts
    obtain ⟨hkey, hval₂⟩ := hkfacts
    have hlv : jlookup kvs k = some v := jlookup_eq_some_of_mem hnd hkv
    rcases hkey with rfl | rfl
    · have hpn : parseNum v = .ok a₁ := reqField_ok_of_lookup hlv hval
      have hni : nullOr numIs v = true := by simpa using hval₂
      exact ⟨_, rfl, covers_parseNum hpn hni⟩
    · have hps : parseStr v = .ok a₂ := reqField_ok_of_lookup hlv hcur
      exact ⟨_, rfl, covers_parseStr hps⟩

theorem recipientParseCovers {j : Json} {x : Recipient}
    (hs : Recipient.shape j = true) (hp : Recipient.parse j = .ok x) :
    covers (Recipient.dump x) j = true := by
  match j with
  | .null | .bool _ | .num _ | .str _ | .arr _ => simp [Recipient.shape, objShape] at hs
  | .obj kvs =>
    simp only [Recipient.shape, objShape, Bool.and_eq_true, List.all_eq_true] at hs
    obtain ⟨hnd, hall⟩ := hs
    simp only [Recipient.parse] at hp
    obtain ⟨g₁, a₂, h₁, hf₂, hx⟩ := Vd.ap_ok hp
    obtain ⟨g₀, a₁, h₀, hf₁, hg⟩ := Vd.ap_ok h₁
    injection h₀ with h₀
    subst h₀ hg hx
    simp only [Recipient.dump, covers]
    apply coversPairs_intro
    intro kv hkv
    obtain ⟨k, v⟩ := kv
    have hkfacts := hall (k, v) hkv
    simp only [Bool.and_eq_true, Bool.or_eq_true, beq_iff_eq] at hkfacts
    obtain ⟨hkey, -⟩ := hkfacts
    have hlv : jlookup kvs k = some v := jlookup_eq_some_of_mem hnd hkv
    rcases hkey with rfl | rfl
    · exact ⟨_, rfl, covers_parseStr (reqField_ok_of_lookup hlv hf₁)⟩
    · exact ⟨_, rfl, covers_parseStr (reqField_ok_of_lookup hlv hf₂)⟩

theorem threeDSInfoParseCovers {j : Json} {x : ThreeDSInfo}
    (hs : ThreeDSInfo.shape j = true) (hp : ThreeDSInfo.parse j = .ok x) :
    covers (ThreeDSInfo.dump x) j = true := by
  match j with
  | .null | .bool _ | .num _ | .str _ | .arr _ => simp [ThreeDSInfo.shape, objShape] at hs
  | .obj kvs =>
    simp only [ThreeDSInfo.shape, objShape, Bool.and_eq_true, List.all_eq_true] at hs
    obtain ⟨hnd, hall⟩ := hs
    simp only [ThreeDSInfo.parse] at hp
    obtain ⟨g₀, a₁, h₀, hf₁, hx⟩ := Vd.ap_ok hp
    injection h₀ with h₀
    subst h₀ hx
    simp only [ThreeDSInfo.dump, covers]
    apply coversPairs_intro
    intro kv hkv
    obtain ⟨k, v⟩ := kv
    have hkfacts := hall (k, v) hkv
    simp only [Bool.and_eq_true, Bool.or_eq_true, beq_iff_eq] at hkfacts
    obtain ⟨hkey, hval₂⟩ := hkfacts
    have hlv : jlookup kvs k = some v := jlookup_eq_some_of_mem hnd hkv
    rcases hkey with rfl
    have hb : nullOr boolIs v = true := by simpa using hval₂
    exact ⟨_, rfl, covers_parseBool (reqField_ok_of_lookup hlv hf₁) hb⟩

theorem cancellationDetailsParseCovers {j : Json} {x : CancellationDetails}
    (hs : CancellationDetails.shape j = true) (hp : CancellationDetails.parse j = .ok x) :
    covers (CancellationDetails.dump x) j = true := by
  match j with
  | .null | .bool _ | .num _ | .str _ | .arr _ =>
    simp [CancellationDetails.shape, objShape] at hs
  | .obj kvs =>
    simp only [CancellationDetails.shape, objShape, Bool.and_eq_true, List.all_eq_true] at hs
    obtain ⟨hnd, hall⟩ := hs
    simp only [CancellationDetails.parse] at hp
    obtain ⟨g₁, a₂, h₁, hf₂, hx⟩ := Vd.ap_ok hp
    obtain ⟨g₀, a₁, h₀, hf₁, hg⟩ := Vd.ap_ok h₁
    injection h₀ with h₀
    subst h₀ hg hx
    simp only [CancellationDetails.dump, covers]
    apply coversPairs_intro
    intro kv hkv
    obtain ⟨k, v⟩ := kv
    have hkfacts := hall (k, v) hkv
    simp only [Bool.and_eq_true, Bool.or_eq_true, beq_iff_eq] at hkfacts
    obtain ⟨hkey, -⟩ := hkfacts
    have hlv : jlookup kvs k = some v := jlookup_eq_some_of_mem hnd hkv
    rcases hkey with rfl | rfl
    · exact ⟨_, rfl,
        covers_enumModel (fun _ => rfl) (reqField_ok_of_lookup hlv hf₁)⟩
    · exact ⟨_, rfl,
        covers_enumModel (fun _ => rfl) (reqField_ok_of_lookup hlv hf₂)⟩

theorem confirmationParseCovers {j : Json} {x : Confirmation}
    (hs : Confirmation.shape j = true) (hp : Confirmation.parse j = .ok x) :
    covers (Confirmation.dump x) j = true := by
  match j with
  | .null | .bool _ | .num _ | .str _ | .arr _ => simp [Confirmation.shape, objShape] at hs
  | .obj kvs =>
    simp only [Confirmation.shape, objShape, Bool.and_eq_true, List.all_eq_true] at hs
    obtain ⟨hnd, hall⟩ := hs
    simp only [Confirmation.parse] at hp
    obtain ⟨g₄, a₅, h₄, hf₅, hx⟩ := Vd.ap_ok hp
    obtain ⟨g₃, a₄, h₃, hf₄, hg₄⟩ := Vd.ap_ok h₄
    obtain ⟨g₂, a₃, h₂, hf₃, hg₃⟩ := Vd.ap_ok h₃
    obtain ⟨g₁, a₂, h₁, hf₂, hg₂⟩ := Vd.ap_ok h₂
    obtain ⟨g₀, a₁, h₀, hf₁, hg₁⟩ := Vd.ap_ok h₁
    injection h₀ with h₀
    subst h₀ hg₁ hg₂ hg₃ hg₄ hx
    simp only [Confirmation.dump, covers]
    apply coversPairs_intro
    intro kv hkv
    obtain ⟨k, v⟩ := kv
    have hkfacts := hall (k, v) hkv
    simp only [Bool.and_eq_true, Bool.or_eq_true, beq_iff_eq] at hkfacts
    obtain ⟨hkey, hval₂⟩ := hkfacts
    have hlv : jlookup kvs k = some v := jlookup_eq_some_of_mem hnd hkv
    rcases hkey with (((rfl | rfl) | rfl) | rfl) | rfl
    · exact ⟨_, rfl,
        covers_enumModel (fun _ => rfl) (reqField_ok_of_lookup hlv hf₁)⟩
    · have hb : nullOr boolIs v = true := by simpa using hval₂
      exact ⟨_, rfl, covers_optField hlv hf₂ (fun a hpa => covers_parseBool hpa hb)⟩
    · exact ⟨_, rfl, covers_optField hlv hf₃ (fun a hpa => covers_parseStr hpa)⟩
    · exact ⟨_, rfl, covers_optField hlv hf₄ (fun a hpa => covers_parseStr hpa)⟩
    · exact ⟨_, rfl, covers_optField hlv hf₅ (fun a hpa => covers_parseStr hpa)⟩

theorem payerBankDetailsParseCovers {j : Json} {x : PayerBankDetails}
    (hs : PayerBankDetails.shape j = true) (hp : PayerBankDetails.parse j = .ok x) :
    covers (PayerBankDetails.dump x) j = true := by
  match j with
  | .null | .bool _ | .num _ | .str _ | .arr _ =>
    simp [PayerBankDetails.shape, objShape] at hs
  | .obj kvs =>
    simp only [PayerBankDetails.shape, objShape, Bool.and_eq_true, List.all_eq_true] at hs
    obtain ⟨hnd, hall⟩ := hs
    simp only [PayerBankDetails.parse] at hp
    obtain ⟨g₈, a₉, h₈, hf₉, hx⟩ := Vd.ap_ok hp
    obtain ⟨g₇, a₈, h₇, hf₈, hg₈⟩ := Vd.ap_ok h₈
    obtain ⟨g₆, a₇, h₆, hf₇, hg₇⟩ := Vd.ap_ok h₇
    obtain ⟨g₅, a₆, h₅, hf₆, hg₆⟩ := Vd.ap_ok h₆
    obtain ⟨g₄, a₅, h₄, hf₅, hg₅⟩ := Vd.ap_ok h₅
    obtain ⟨g₃, a₄, h₃, hf₄, hg₄⟩ := Vd.ap_ok h₄
    obtain ⟨g₂, a₃, h₂, hf₃, hg₃⟩ := Vd.ap_ok h₃
    obtain ⟨g₁, a₂, h₁, hf₂, hg₂⟩ := Vd.ap_ok h₂
    obtain ⟨g₀, a₁, h₀, hf₁, hg₁⟩ := Vd.ap_ok h₁
    injection h₀ with h₀
    subst h₀ hg₁ hg₂ hg₃ hg₄ hg₅ hg₆ hg₇ hg₈ hx
    simp only [PayerBankDetails.dump, covers]
    apply coversPairs_intro
    intro kv hkv
    obtain ⟨k, v⟩ := kv
    have hkfacts := hall (k, v) hkv
    simp only [Bool.and_eq_true, Bool.or_eq_true, beq_iff_eq] at hkfacts
    obtain ⟨hkey, -⟩ := hkfacts
    have hlv : jlookup kvs k = some v := jlookup_eq_some_of_mem hnd hkv
    rcases hkey with ((((((((rfl | rfl) | rfl) | rfl) | rfl) | rfl) | rfl) | rfl) | rfl)
    · exact ⟨_, rfl, covers_parseStr (reqField_ok_of_lookup hlv hf₁)⟩
    · exact ⟨_, rfl, covers_parseStr (reqField_ok_of_lookup hlv hf₂)⟩
    · exact ⟨_, rfl, covers_parseStr (reqField_ok_of_lookup hlv hf₃)⟩
    · exact ⟨_, rfl, covers_parseStr (reqField_ok_of_lookup hlv hf₄)⟩
    · exact ⟨_, rfl, covers_parseStr (reqField_ok_of_lookup hlv hf₅)⟩
    · exact ⟨_, rfl, covers_parseStr (reqField_ok_of_lookup hlv hf₆)⟩
    · exact ⟨_, rfl, covers_parseStr (reqField_ok_of_lookup hlv hf₇)⟩
    · exact ⟨_, rfl, covers_parseStr (reqField_ok_of_lookup hlv hf₈)⟩
    · exact ⟨_, rfl, covers_optField hlv hf₉ (fun a hpa => covers_parseStr hpa)⟩

theorem cardInfoParseCovers {j : Json} {x : CardInfo}
    (hs : CardInfo.shape j = true) (hp : CardInfo.parse j = .ok x) :
    covers (CardInfo.dump x) j = true := by
  match j with
  | .null | .bool _ | .num _ | .str _ | .arr _ => simp [CardInfo.shape, objShape] at hs
  | .obj kvs =>
    simp only [CardInfo.shape, objShape, Bool.and_eq_true, List.all_eq_true] at hs
    obtain ⟨hnd, hall⟩ := hs
    simp only [CardInfo.parse] at hp
    obtain ⟨g₇, a₈, h₇, hf₈, hx⟩ := Vd.ap_ok hp
    obtain ⟨g₆, a₇, h₆, hf₇, hg₇⟩ := Vd.ap_ok h₇
    obtain ⟨g₅, a₆, h₅, hf₆, hg₆⟩ := Vd.ap_ok h₆
    obtain ⟨g₄, a₅, h₄, hf₅, hg₅⟩ := Vd.ap_ok h₅
    obtain ⟨g₃, a₄, h₃, hf₄, hg₄⟩ := Vd.ap_ok h₄
    obtain ⟨g₂, a₃, h₂, hf₃, hg₃⟩ := Vd.ap_ok h₃
    obtain ⟨g₁, a₂, h₁, hf₂, hg₂⟩ := Vd.ap_ok h₂
    obtain ⟨g₀, a₁, h₀, hf₁, hg₁⟩ := Vd.ap_ok h₁
    injection h₀ with h₀
    subst h₀ hg₁ hg₂ hg₃ hg₄ hg₅ hg₆ hg₇ hx
    simp only [CardInfo.dump, covers]
    apply coversPairs_intro
    intro kv hkv
    obtain ⟨k, v⟩ := kv
    have hkfacts := hall (k, v) hkv
    simp only [Bool.and_eq_true, Bool.or_eq_true, beq_iff_eq] at hkfacts
    obtain ⟨hkey, -⟩ := hkfacts
    have hlv : jlookup kvs k = some v := jlookup_eq_some_of_mem hnd hkv
    rcases hkey with (((((((rfl | rfl) | rfl) | rfl) | rfl) | rfl) | rfl) | rfl)
    · exact ⟨_, rfl, covers_optField hlv hf₁ (fun a hpa => covers_parseStr hpa)⟩
    · exact ⟨_, rfl, covers_parseStr (reqField_ok_of_lookup hlv hf₂)⟩
    · exact ⟨_, rfl, covers_parseStr (reqField_ok_of_lookup hlv hf₃)⟩
    · exact ⟨_, rfl, covers_parseStr (reqField_ok_of_lookup hlv hf₄)⟩
    · exact ⟨_, rfl, covers_parseStr (reqField_ok_of_lookup hlv hf₅)⟩
    · exact ⟨_, rfl, covers_optField hlv hf₆ (fun a hpa => covers_parseStr hpa)⟩
    · exact ⟨_, rfl, covers_optField hlv hf₇ (fun a hpa => covers_parseStr hpa)⟩
    · exact ⟨_, rfl, covers_optField hlv hf₈ (fun a hpa => covers_parseStr hpa)⟩

theorem vatDataParseCovers {j : Json} {x : VatData}
    (hs : VatData.shape j = true) (hp : VatData.parse j = .ok x) :
    covers (VatData.dump x) j = true := by
  match j with
  | .null | .bool _ | .num _ | .str _ | .arr _ => simp [VatData.shape, objShape] at hs
  | .obj kvs =>
    simp only [VatData.shape, objShape, Bool.and_eq_true, List.all_eq_true] at hs
    obtain ⟨hnd, hall⟩ := hs
    simp only [VatData.parse] at hp
    obtain ⟨g₂, a₃, h₂, hf₃, hx⟩ := Vd.ap_ok hp
    obtain ⟨g₁, a₂, h₁, hf₂, hg₂⟩ := Vd.ap_ok h₂
    obtain ⟨g₀, a₁, h₀, hf₁, hg₁⟩ := Vd.ap_ok h₁
    injection h₀ with h₀
    subst h₀ hg₁ hg₂ hx
    simp only [VatData.dump, covers]
    apply coversPairs_intro
    intro kv hkv
    obtain ⟨k, v⟩ := kv
    have hkfacts := hall (k, v) hkv
    simp only [Bool.and_eq_true, Bool.or_eq_true, beq_iff_eq] at hkfacts
    obtain ⟨hkey, hval₂⟩ := hkfacts
    have hlv : jlookup kvs k = some v := jlookup_eq_some_of_mem hnd hkv
    rcases hkey with (rfl | rfl) | rfl
    · exact ⟨_, rfl, covers_parseStr (reqField_ok_of_lookup hlv hf₁)⟩
    · have hsh : nullOr PaymentAmount.shape v = true := by simpa using hval₂
      refine ⟨_, rfl, covers_optField hlv hf₂ (fun a hpa => ?_)⟩
      have hsh₂ : PaymentAmount.shape v = true := by
        cases v <;> simp_all [nullOr, PaymentAmount.parse]
      exact paymentAmountParseCovers hsh₂ hpa
    · exact ⟨_, rfl, covers_optField hlv hf₃ (fun a hpa => covers_parseStr hpa)⟩

theorem paymentMethodParseCovers {j : Json} {x : PaymentMethod}
    (hs : PaymentMethod.shape j = true) (hp : PaymentMethod.parse j = .ok x) :
    covers (PaymentMethod.dump x) j = true := by
  match j with
  | .null | .bool _ | .num _ | .str _ | .arr _ => simp [PaymentMethod.shape, objShape] at hs
  | .obj kvs =>
    simp only [PaymentMethod.shape, objShape, Bool.and_eq_true, List.all_eq_true] at hs
    obtain ⟨hnd, hall⟩ := hs
    simp only [PaymentMethod.parse] at hp
    obtain ⟨g₁₀, a₁₁, h₁₀, hf₁₁, hx⟩ := Vd.ap_ok hp
    obtain ⟨g₉, a₁₀, h₉, hf₁₀, hg₁₀⟩ := Vd.ap_ok h₁₀
    obtain ⟨g₈, a₉, h₈, hf₉, hg₉⟩ := Vd.ap_ok h₉
    obtain ⟨g₇, a₈, h₇, hf₈, hg₈⟩ := Vd.ap_ok h₈
    obtain ⟨g₆, a₇, h₆, hf₇, hg₇⟩ := Vd.ap_ok h₇
    obtain ⟨g₅, a₆, h₅, hf₆, hg₆⟩ := Vd.ap_ok h₆
    obtain ⟨g₄, a₅, h₄, hf₅, hg₅⟩ := Vd.ap_ok h₅
    obtain ⟨g₃, a₄, h₃, hf₄, hg₄⟩ := Vd.ap_ok h₄
    obtain ⟨g₂, a₃, h₂, hf₃, hg₃⟩ := Vd.ap_ok h₃
    obtain ⟨g₁, a₂, h₁, hf₂, hg₂⟩ := Vd.ap_ok h₂
    obtain ⟨g₀, a₁, h₀, hf₁, hg₁⟩ := Vd.ap_ok h₁
    injection h₀ with h₀
    subst h₀ hg₁ hg₂ hg₃ hg₄ hg₅ hg₆ hg₇ hg₈ hg₉ hg₁₀ hx
    simp only [PaymentMethod.dump, covers]
    apply coversPairs_intro
    intro kv hkv
    obtain ⟨k, v⟩ := kv
    have hkfacts := hall (k, v) hkv
    simp only [Bool.and_eq_true, Bool.or_eq_true, beq_iff_eq] at hkfacts
    obtain ⟨hkey, hval₂⟩ := hkfacts
    have hlv : jlookup kvs k = some v := jlookup_eq_some_of_mem hnd hkv
    rcases hkey with
      ((((((((((rfl | rfl) | rfl) | rfl) | rfl) | rfl) | rfl) | rfl) | rfl) | rfl) | rfl)
    · exact ⟨_, rfl, covers_parseStr (reqField_ok_of_lookup hlv hf₁)⟩
    · exact ⟨_, rfl, covers_parseStr (reqField_ok_of_lookup hlv hf₂)⟩
    · have hb : nullOr boolIs v = true := by simpa using hval₂
      exact ⟨_, rfl, covers_parseBool (reqField_ok_of_lookup hlv hf₃) hb⟩
    · exact ⟨_, rfl, covers_optField hlv hf₄ (fun a hpa => covers_parseStr hpa)⟩
    · exact ⟨_, rfl, covers_optField hlv hf₅ (fun a hpa => covers_parseStr hpa)⟩
    · refine ⟨_, rfl, covers_optField hlv hf₆ (fun a hpa => ?_)⟩
      have hsh : nullOr CardInfo.shape v = true := by simpa using hval₂
      have hsh₂ : CardInfo.shape v = true := by
        cases v <;> simp_all [nullOr, CardInfo.parse]
      exact cardInfoParseCovers hsh₂ hpa
    · exact ⟨_, rfl, covers_optField hlv hf₇ (fun a hpa => covers_parseStr hpa)⟩
    · refine ⟨_, rfl, covers_optField hlv hf₈ (fun a hpa => ?_)⟩
      have hsh : nullOr PayerBankDetails.shape v = true := by simpa using hval₂
      have hsh₂ : PayerBankDetails.shape v = true := by
        cases v <;> simp_all [nullOr, PayerBankDetails.parse]
      exact payerBankDetailsParseCovers hsh₂ hpa
    · exact ⟨_, rfl, covers_optField hlv hf₉ (fun a hpa => covers_parseStr hpa)⟩
    · refine ⟨_, rfl, covers_optField hlv hf₁₀ (fun a hpa => ?_)⟩
      have hsh : nullOr VatData.shape v = true := by simpa using hval₂
      have hsh₂ : VatData.shape v = true := by
        cases v <;> simp_all [nullOr, VatData.parse]
      exact vatDataParseCovers hsh₂ hpa
    · exact ⟨_, rfl, covers_optField hlv hf₁₁ (fun a hpa => covers_parseStr hpa)⟩

theorem authorizationDetailsParseCovers {j : Json} {x : AuthorizationDetails}
    (hs : AuthorizationDetails.shape j = true)
    (hp : AuthorizationDetails.parse j = .ok x) :
    covers (AuthorizationDetails.dump x) j = true := by
  match j with
  | .null | .bool _ | .num _ | .str _ | .arr _ =>
    simp [AuthorizationDetails.shape, objShape] at hs
  | .obj kvs =>
    simp only [AuthorizationDetails.shape, objShape, Bool.and_eq_true,
      List.all_eq_true] at hs
    obtain ⟨hnd, hall⟩ := hs
    simp only [AuthorizationDetails.parse] at hp
    obtain ⟨g₂, a₃, h₂, hf₃, hx⟩ := Vd.ap_ok hp
    obtain ⟨g₁, a₂, h₁, hf₂, hg₂⟩ := Vd.ap_ok h₂
    obtain ⟨g₀, a₁, h₀, hf₁, hg₁⟩ := Vd.ap_ok h₁
    injection h₀ with h₀
    subst h₀ hg₁ hg₂ hx
    simp only [AuthorizationDetails.dump, covers]
    apply coversPairs_intro
    intro kv hkv
    obtain ⟨k, v⟩ := kv
    have hkfacts := hall (k, v) hkv
    simp only [Bool.and_eq_true, Bool.or_eq_true, beq_iff_eq] at hkfacts
    obtain ⟨hkey, hval₂⟩ := hkfacts
    have hlv : jlookup kvs k = some v := jlookup_eq_some_of_mem hnd hkv
    rcases hkey with (rfl | rfl) | rfl
    · exact ⟨_, rfl, covers_optField hlv hf₁ (fun a hpa => covers_parseStr hpa)⟩
    · exact ⟨_, rfl, covers_optField hlv hf₂ (fun a hpa => covers_parseStr hpa)⟩
    · have hpa := reqField_ok_of_lookup hlv hf₃
      have hsh : nullOr ThreeDSInfo.shape v = true := by simpa using hval₂
      have hsh₂ : ThreeDSInfo.shape v = true := by
        cases v <;> simp_all [nullOr, ThreeDSInfo.parse]
      exact ⟨_, rfl, threeDSInfoParseCovers hsh₂ hpa⟩

theorem transferParseCovers {j : Json} {x : Transfer}
    (hs : Transfer.shape j = true) (hp : Transfer.parse j = .ok x) :
    covers (Transfer.dump x) j = true := by
  match j with
  | .null | .bool _ | .num _ | .str _ | .arr _ => simp [Transfer.shape, objShape] at hs
  | .obj kvs =>
    simp only [Transfer.shape, objShape, Bool.and_eq_true, List.all_eq_true] at hs
    obtain ⟨hnd, hall⟩ := hs
    simp only [Transfer.parse] at hp
    obtain ⟨g₅, a₆, h₅, hf₆, hx⟩ := Vd.ap_ok hp
    obtain ⟨g₄, a₅, h₄, hf₅, hg₅⟩ := Vd.ap_ok h₅
    obtain ⟨g₃, a₄, h₃, hf₄, hg₄⟩ := Vd.ap_ok h₄
    obtain ⟨g₂, a₃, h₂, hf₃, hg₃⟩ := Vd.ap_ok h₃
    obtain ⟨g₁, a₂, h₁, hf₂, hg₂⟩ := Vd.ap_ok h₂
    obtain ⟨g₀, a₁, h₀, hf₁, hg₁⟩ := Vd.ap_ok h₁
    injection h₀ with h₀
    subst h₀ hg₁ hg₂ hg₃ hg₄ hg₅ hx
    simp only [Transfer.dump, covers]
    apply coversPairs_intro
    intro kv hkv
    obtain ⟨k, v⟩ := kv
    have hkfacts := hall (k, v) hkv
    simp only [Bool.and_eq_true, Bool.or_eq_true, beq_iff_eq] at hkfacts
    obtain ⟨hkey, hval₂⟩ := hkfacts
    have hlv : jlookup kvs k = some v := jlookup_eq_some_of_mem hnd hkv
    rcases hkey with ((((rfl | rfl) | rfl) | rfl) | rfl) | rfl
    · exact ⟨_, rfl, covers_parseStr (reqField_ok_of_lookup hlv hf₁)⟩
    · have hpa := reqField_ok_of_lookup hlv hf₂
      have hsh : nullOr PaymentAmount.shape v = true := by simpa using hval₂
      have hsh₂ : PaymentAmount.shape v = true := by
        cases v <;> simp_all [nullOr, PaymentAmount.parse]
      exact ⟨_, rfl, paymentAmountParseCovers hsh₂ hpa⟩
    · exact ⟨_, rfl,
        covers_enumModel (fun _ => rfl) (reqField_ok_of_lookup hlv hf₃)⟩
    · refine ⟨_, rfl, covers_optField hlv hf₄ (fun a hpa => ?_)⟩
      have hsh : nullOr PaymentAmount.shape v = true := by simpa using hval₂
      have hsh₂ : PaymentAmount.shape v = true := by
        cases v <;> simp_all [nullOr, PaymentAmount.parse]
      exact paymentAmountParseCovers hsh₂ hpa
    · exact ⟨_, rfl, covers_optField hlv hf₅ (fun a hpa => covers_parseStr hpa)⟩
    · refine ⟨_, rfl, covers_optField hlv hf₆ (fun a hpa => ?_)⟩
      have hsh : nullOr canonJson v = true := by simpa using hval₂
      have hsh₂ : canonJson v = true := by
        cases v <;> simp_all [nullOr, parseDict]
      exact covers_parseDict hpa hsh₂

theorem dealParseCovers {j : Json} {x : Deal}
    (hs : Deal.shape j = true) (hp : Deal.parse j = .ok x) :
    covers (Deal.dump x) j = true := by
  match j with
  | .null | .bool _ | .num _ | .str _ | .arr _ => simp [Deal.shape, objShape] at hs
  | .obj kvs =>
    simp only [Deal.shape, objShape, Bool.and_eq_true, List.all_eq_true] at hs
    obtain ⟨hnd, hall⟩ := hs
    simp only [Deal.parse] at hp
    obtain ⟨g₁, a₂, h₁, hf₂, hx⟩ := Vd.ap_ok hp
    obtain ⟨g₀, a₁, h₀, hf₁, hg₁⟩ := Vd.ap_ok h₁
    injection h₀ with h₀
    subst h₀ hg₁ hx
    simp only [Deal.dump, covers]
    apply coversPairs_intro
    intro kv hkv
    obtain ⟨k, v⟩ := kv
    have hkfacts := hall (k, v) hkv
    simp only [Bool.and_eq_true, Bool.or_eq_true, beq_iff_eq] at hkfacts
    obtain ⟨hkey, hval₂⟩ := hkfacts
    have hlv : jlookup kvs k = some v := jlookup_eq_some_of_mem hnd hkv
    rcases hkey with rfl | rfl
    · exact ⟨_, rfl, covers_parseStr (reqField_ok_of_lookup hlv hf₁)⟩
    · have hpa := reqField_ok_of_lookup hlv hf₂
      have hsh : listShape PaymentAmount.shape v = true := by simpa using hval₂
      exact ⟨_, rfl, covers_parseList hpa hsh
        (fun y a hya hsy => paymentAmountParseCovers hsy hya)⟩

theorem paymentParseCovers {j : Json} {x : Payment}
    (hs : Payment.shape j = true) (hp : Payment.parse j = .ok x) :
    covers (Payment.dump x) j = true := by
  match j with
  | .null | .bool _ | .num _ | .str _ | .arr _ => simp [Payment.shape, objShape] at hs
  | .obj kvs =>
    simp only [Payment.shape, objShape, Bool.and_eq_true, List.all_eq_true] at hs
    obtain ⟨hnd, hall⟩ := hs
    simp only [Payment.parse] at hp
    obtain ⟨g₂₁, a₂₂, h₂₁, hf₂₂, hx⟩ := Vd.ap_ok hp
    obtain ⟨g₂₀, a₂₁, h₂₀, hf₂₁, hg₂₁⟩ := Vd.ap_ok h₂₁
    obtain ⟨g₁₉, a₂₀, h₁₉, hf₂₀, hg₂₀⟩ := Vd.ap_ok h₂₀
    obtain ⟨g₁₈, a₁₉, h₁₈, hf₁₉, hg₁₉⟩ := Vd.ap_ok h₁₉
    obtain ⟨g₁₇, a₁₈, h₁₇, hf₁₈, hg₁₈⟩ := Vd.ap_ok h₁₈
    obtain ⟨g₁₆, a₁₇, h₁₆, hf₁₇, hg₁₇⟩ := Vd.ap_ok h₁₇
    obtain ⟨g₁₅, a₁₆, h₁₅, hf₁₆, hg₁₆⟩ := Vd.ap_ok h₁₆
    obtain ⟨g₁₄, a₁₅, h₁₄, hf₁₅, hg₁₅⟩ := Vd.ap_ok h₁₅
    obtain ⟨g₁₃, a₁₄, h₁₃, hf₁₄, hg₁₄⟩ := Vd.ap_ok h₁₄
    obtain ⟨g₁₂, a₁₃, h₁₂, hf₁₃, hg₁₃⟩ := Vd.ap_ok h₁₃
    obtain ⟨g₁₁, a₁₂, h₁₁, hf₁₂, hg₁₂⟩ := Vd.ap_ok h₁₂
    obtain ⟨g₁₀, a₁₁, h₁₀, hf₁₁, hg₁₁⟩ := Vd.ap_ok h₁₁
    obtain ⟨g₉, a₁₀, h₉, hf₁₀, hg₁₀⟩ := Vd.ap_ok h₁₀
    obtain ⟨g₈, a₉, h₈, hf₉, hg₉⟩ := Vd.ap_ok h₉
    obtain ⟨g₇, a₈, h₇, hf₈, hg₈⟩ := Vd.ap_ok h₈
    obtain ⟨g₆, a₇, h₆, hf₇, hg₇⟩ := Vd.ap_ok h₇
    obtain ⟨g₅, a₆, h₅, hf₆, hg₆⟩ := Vd.ap_ok h₆
    obtain ⟨g₄, a₅, h₄, hf₅, hg₅⟩ := Vd.ap_ok h₅
    obtain ⟨g₃, a₄, h₃, hf₄, hg₄⟩ := Vd.ap_ok h₄
    obtain ⟨g₂, a₃, h₂, hf₃, hg₃⟩ := Vd.ap_ok h₃
    obtain ⟨g₁, a₂, h₁, hf₂, hg₂⟩ := Vd.ap_ok h₂
    obtain ⟨g₀, a₁, h₀, hf₁, hg₁⟩ := Vd.ap_ok h₁
    injection h₀ with h₀
    subst h₀ hg₁ hg₂ hg₃ hg₄ hg₅ hg₆ hg₇ hg₈ hg₉ hg₁₀ hg₁₁ hg₁₂ hg₁₃ hg₁₄ hg₁₅
    subst hg₁₆ hg₁₇ hg₁₈ hg₁₉ hg₂₀ hg₂₁ hx
    clear hp h₁ h₂ h₃ h₄ h₅ h₆ h₇ h₈ h₉ h₁₀ h₁₁ h₁₂ h₁₃ h₁₄ h₁₅ h₁₆ h₁₇ h₁₈ h₁₉ h₂₀ h₂₁
    simp only [Payment.dump, covers]
    apply coversPairs_intro
    intro kv hkv
    obtain ⟨k, v⟩ := kv
    obtain ⟨hkey, hval₂⟩ := hall (k, v) hkv
    clear hall
    simp only [Bool.or_eq_true, beq_iff_eq] at hkey
    have hlv : jlookup kvs k = some v := jlookup_eq_some_of_mem hnd hkv
    rcases hkey with
      ((((((((((((((((((((rfl | rfl) | rfl) | rfl) | rfl) | rfl) | rfl) | rfl) | rfl) | rfl) | rfl) | rfl) | rfl) | rfl) | rfl) | rfl) | rfl) | rfl) | rfl) | rfl) | rfl) | rfl
    · exact ⟨_, rfl, covers_parseStr (reqField_ok_of_lookup hlv hf₁)⟩
    · exact ⟨_, rfl,
        covers_enumModel (fun _ => rfl) (reqField_ok_of_lookup hlv hf₂)⟩
    · have hpa := reqField_ok_of_lookup hlv hf₃
      have hsh : nullOr PaymentAmount.shape v = true := by simpa using hval₂
      have hsh₂ : PaymentAmount.shape v = true := by
        cases v <;> simp_all [nullOr, PaymentAmount.parse]
      exact ⟨_, rfl, paymentAmountParseCovers hsh₂ hpa⟩
    · refine ⟨_, rfl, covers_optField hlv hf₄ (fun a hpa => ?_)⟩
      have hsh : nullOr PaymentAmount.shape v = true := by simpa using hval₂
      have hsh₂ : PaymentAmount.shape v = true := by
        cases v <;> simp_all [nullOr, PaymentAmount.parse]
      exact paymentAmountParseCovers hsh₂ hpa
    · exact ⟨_, rfl, covers_optField hlv hf₅ (fun a hpa => covers_parseStr hpa)⟩
    · have hpa := reqField_ok_of_lookup hlv hf₆
      have hsh : nullOr Recipient.shape v = true := by simpa using hval₂
      have hsh₂ : Recipient.shape v = true := by
        cases v <;> simp_all [nullOr, Recipient.parse]
      exact ⟨_, rfl, recipientParseCovers hsh₂ hpa⟩
    · refine ⟨_, rfl, covers_optField hlv hf₇ (fun a hpa => ?_)⟩
      have hsh : nullOr PaymentMethod.shape v = true := by simpa using hval₂
      have hsh₂ : PaymentMethod.shape v = true := by
        cases v <;> simp_all [nullOr, PaymentMethod.parse]
      exact paymentMethodParseCovers hsh₂ hpa
    · have hdt : nullOr dtOK v = true := by simpa using hval₂
      exact ⟨_, rfl, covers_optField hlv hf₈ (fun a hpa => covers_parseDT hpa hdt)⟩
    · have hdt : nullOr dtOK v = true := by simpa using hval₂
      exact ⟨_, rfl, covers_parseDT (reqField_ok_of_lookup hlv hf₉) hdt⟩
    · have hdt : nullOr dtOK v = true := by simpa using hval₂
      exact ⟨_, rfl, covers_optField hlv hf₁₀ (fun a hpa => covers_parseDT hpa hdt)⟩
    · refine ⟨_, rfl, covers_optField hlv hf₁₁ (fun a hpa => ?_)⟩
      have hsh : nullOr Confirmation.shape v = true := by simpa using hval₂
      have hsh₂ : Confirmation.shape v = true := by
        cases v <;> simp_all [nullOr, Confirmation.parse]
      exact confirmationParseCovers hsh₂ hpa
    · have hb : nullOr boolIs v = true := by simpa using hval₂
      exact ⟨_, rfl, covers_parseBool (reqField_ok_of_lookup hlv hf₁₂) hb⟩
    · refine ⟨_, rfl, covers_optField hlv hf₁₃ (fun a hpa => ?_)⟩
      have hsh : nullOr PaymentAmount.shape v = true := by simpa using hval₂
      have hsh₂ : PaymentAmount.shape v = true := by
        cases v <;> simp_all [nullOr, PaymentAmount.parse]
      exact paymentAmountParseCovers hsh₂ hpa
    · have hb : nullOr boolIs v = true := by simpa using hval₂
      exact ⟨_, rfl, covers_parseBool (reqField_ok_of_lookup hlv hf₁₄) hb⟩
    · have hb : nullOr boolIs v = true := by simpa using hval₂
      exact ⟨_, rfl, covers_parseBool (reqField_ok_of_lookup hlv hf₁₅) hb⟩
    · exact ⟨_, rfl, covers_optField hlv hf₁₆
        (fun a hpa => covers_enumModel (fun _ => rfl) hpa)⟩
    · refine ⟨_, rfl, covers_optField hlv hf₁₇ (fun a hpa => ?_)⟩
      have hsh : nullOr canonJson v = true := by simpa using hval₂
      have hsh₂ : canonJson v = true := by
        cases v <;> simp_all [nullOr, parseDict]
      exact covers_parseDict hpa hsh₂
    · refine ⟨_, rfl, covers_optField hlv hf₁₈ (fun a hpa => ?_)⟩
      have hsh : nullOr CancellationDetails.shape v = true := by simpa using hval₂
      have hsh₂ : CancellationDetails.shape v = true := by
        cases v <;> simp_all [nullOr, CancellationDetails.parse]
      exact cancellationDetailsParseCovers hsh₂ hpa
    · refine ⟨_, rfl, covers_optField hlv hf₁₉ (fun a hpa => ?_)⟩
      have hsh : nullOr AuthorizationDetails.shape v = true := by simpa using hval₂
      have hsh₂ : AuthorizationDetails.shape v = true := by
        cases v <;> simp_all [nullOr, AuthorizationDetails.parse]
      exact authorizationDetailsParseCovers hsh₂ hpa
    · refine ⟨_, rfl, covers_optField hlv hf₂₀ (fun l hpl => ?_)⟩
      have hsh : listShape Transfer.shape v = true := by simpa using hval₂
      exact covers_parseList hpl hsh (fun y a hya hsy => transferParseCovers hsy hya)
    · refine ⟨_, rfl, covers_optField hlv hf₂₁ (fun a hpa => ?_)⟩
      have hsh : nullOr Deal.shape v = true := by simpa using hval₂
      have hsh₂ : Deal.shape v = true := by
        cases v <;> simp_all [nullOr, Deal.parse]
      exact dealParseCovers hsh₂ hpa
    · exact ⟨_, rfl, covers_optField hlv hf₂₂ (fun a hpa => covers_parseStr hpa)⟩

/-! ## Claim C1: Transfer without platform_fee_amount -/

def c1Kvs : List (String × Json) :=
  [("account_id", .str "acc-1"),
   ("amount", .obj [("value", .num 10), ("currency", .str "RUB")]),
   ("status", .str "succeeded")]

def c1Transfer : Transfer :=
  ⟨"acc-1", ⟨.int 10, "RUB"⟩, ⟨"succeeded"⟩, none, none, none⟩

/-- C1: for every Transfer payload that omits the `platform_fee_amount` key
entirely, construction succeeds rather than failing as a missing-mandatory-field
error (the field contributes no validation error when absent, and a concrete
minimal payload without it parses), and the resulting entity's `fee_amount`
is `none`, the null/absent marker. -/
theorem c1_transfer_fee_amount_optional :
    (∀ kvs x, jlookup kvs "platform_fee_amount" = none →
      Transfer.parse (.obj kvs) = .ok x → x.fee_amount = none) ∧
    (∀ kvs, jlookup kvs "platform_fee_amount" = none →
      (optField kvs "platform_fee_amount" PaymentAmount.parse).errs = []) ∧
    Transfer.parse (.obj c1Kvs) = .ok c1Transfer := by
  refine ⟨?_, ?_, ?_⟩
  · intro kvs x hmiss hp
    simp only [Transfer.parse] at hp
    obtain ⟨g₅, a₆, h₅, hf₆, hx⟩ := Vd.ap_ok hp
    obtain ⟨g₄, a₅, h₄, hf₅, hg₅⟩ := Vd.ap_ok h₅
    obtain ⟨g₃, a₄, h₃, hf₄, hg₄⟩ := Vd.ap_ok h₄
    obtain ⟨g₂, a₃, h₂, hf₃, hg₃⟩ := Vd.ap_ok h₃
    obtain ⟨g₁, a₂, h₁, hf₂, hg₂⟩ := Vd.ap_ok h₂
    obtain ⟨g₀, a₁, h₀, hf₁, hg₁⟩ := Vd.ap_ok h₁
    injection h₀ with h₀
    subst h₀ hg₁ hg₂ hg₃ hg₄ hg₅ hx
    simp only [optField, hmiss] at hf₄
    injection hf₄ with hf₄
    exact hf₄.symm
  · intro kvs hmiss
    simp [optField, hmiss, Vd.errs]
  · rfl

/-- C1 witness: the universal parts instantiated at the concrete payload. -/
theorem c1_witness :
    jlookup c1Kvs "platform_fee_amount" = none ∧
    c1Transfer.fee_amount = none ∧
    (optField c1Kvs "platform_fee_amount" PaymentAmount.parse).errs = [] :=
  ⟨rfl, c1_transfer_fee_amount_optional.1 c1Kvs c1Transfer rfl
      c1_transfer_fee_amount_optional.2.2,
    c1_transfer_fee_amount_optional.2.1 c1Kvs rfl⟩

/-! ## Claim C2: missing mandatory fields -/

/-- C2: a payload missing a mandatory field — `Payment.created_at` or
`Recipient.account_id` — fails construction with a validation failure naming
that missing field's path (membership of the field name among the reported
error paths) and yields no entity (the result is an error, never a partially
constructed value). -/
theorem c2_missing_mandatory_field_fails :
    (∀ kvs, jlookup kvs "created_at" = none →
      "created_at" ∈ (Payment.parse (.obj kvs)).errs ∧
        (Payment.parse (.obj kvs)).isOk = false) ∧
    (∀ kvs, jlookup kvs "account_id" = none →
      "account_id" ∈ (Recipient.parse (.obj kvs)).errs ∧
        (Recipient.parse (.obj kvs)).isOk = false) := by
  constructor
  · intro kvs hmiss
    have hc : reqField kvs "created_at" PyDateTime.parse = .err ["created_at"] := by
      simp [reqField, hmiss]
    have hmem : "created_at" ∈ (Payment.parse (.obj kvs)).errs := by
      simp only [Payment.parse, Vd.errs_ap, hc]
      simp [Vd.errs]
    exact ⟨hmem, Vd.isOk_false_of_errs (List.ne_nil_of_mem hmem)⟩
  · intro kvs hmiss
    have hc : reqField kvs "account_id" parseStr = .err ["account_id"] := by
      simp [reqField, hmiss]
    have hmem : "account_id" ∈ (Recipient.parse (.obj kvs)).errs := by
      simp only [Recipient.parse, Vd.errs_ap, hc]
      simp [Vd.errs]
    exact ⟨hmem, Vd.isOk_false_of_errs (List.ne_nil_of_mem hmem)⟩

/-- C2 witness: the empty payload is missing both cited mandatory fields. -/
theorem c2_witness :
    "created_at" ∈ (Payment.parse (.obj [])).errs ∧
    (Payment.parse (.obj [])).isOk = false ∧
    "account_id" ∈ (Recipient.parse (.obj [])).errs ∧
    (Recipient.parse (.obj [])).isOk = false :=
  ⟨(c2_missing_mandatory_field_fails.1 [] rfl).1,
   (c2_missing_mandatory_field_fails.1 [] rfl).2,
   (c2_missing_mandatory_field_fails.2 [] rfl).1,
   (c2_missing_mandatory_field_fails.2 [] rfl).2⟩

/-! ## Claim C3: defaults for absent optional keys -/

def c3Kvs : List (String × Json) :=
  [("id", .str "pay-1"), ("status", .str "succeeded"),
   ("amount", .obj [("value", .num 100), ("currency", .str "RUB")]),
   ("recipient", .obj [("account_id", .str "acct"), ("gateway_id", .str "gw")]),
   ("created_at", .str "2022-01-01T00:00:00Z"),
   ("test", .bool false), ("paid", .bool true), ("refundable", .bool false)]

def c3Payment : Payment :=
  ⟨"pay-1", ⟨"succeeded"⟩, ⟨.int 100, "RUB"⟩, none, none, ⟨"acct", "gw"⟩, none, none,
   ⟨"2022-01-01T00:00:00Z"⟩, none, none, false, none, true, false, none, none, none,
   none, none, none, none⟩

/-- C3 counterexample: a PaymentsList payload without `items` but with a
`cursor` value constructs with `cursor` equal to that value, not null — so the
claim's "a PaymentsList constructed from a payload without `items` has ...
`cursor` equal to null" is false as stated. -/
theorem c3_counterexample :
    PaymentsList.parse (.obj [("cursor", .str "abc")]) = .ok ⟨[], some "abc"⟩ ∧
    (PaymentsList.mk [] (some "abc")).cursor ≠ none :=
  ⟨rfl, by simp⟩

/-- C3 (amended): when the optional keys are absent the defaulted fields
resolve without raising — a PaymentsList payload with `items` absent has
`list = []`, and additionally `cursor = null` when `cursor` is also absent; a
Payment payload without a `cancellation_details` key parses (when otherwise
valid) with `cancellation_details = null`, and a concrete payload with
`status = "succeeded"` and no `cancellation_details` key constructs
successfully. -/
theorem c3_absent_optional_defaults :
    (∀ kvs x, jlookup kvs "items" = none →
      PaymentsList.parse (.obj kvs) = .ok x → x.list = []) ∧
    (∀ kvs, jlookup kvs "items" = none → jlookup kvs "cursor" = none →
      PaymentsList.parse (.obj kvs) = .ok ⟨[], none⟩) ∧
    (∀ kvs x, jlookup kvs "cancellation_details" = none →
      Payment.parse (.obj kvs) = .ok x → x.cancellation_details = none) ∧
    Payment.parse (.obj c3Kvs) = .ok c3Payment := by
  refine ⟨?_, ?_, ?_, ?_⟩
  · intro kvs x hitems hp
    simp only [PaymentsList.parse] at hp
    obtain ⟨g₁, a₂, h₁, hf₂, hx⟩ := Vd.ap_ok hp
    obtain ⟨g₀, a₁, h₀, hf₁, hg₁⟩ := Vd.ap_ok h₁
    injection h₀ with h₀
    subst h₀ hg₁ hx
    simp only [optListField, hitems] at hf₁
    injection hf₁ with hf₁
    exact hf₁.symm
  · intro kvs hitems hcursor
    simp [PaymentsList.parse, optListField, optField, hitems, hcursor, Vd.ap]
  · intro kvs x hmiss hp
    simp only [Payment.parse] at hp
    obtain ⟨g₂₁, a₂₂, h₂₁, hf₂₂, hx⟩ := Vd.ap_ok hp
    obtain ⟨g₂₀, a₂₁, h₂₀, hf₂₁, hg₂₁⟩ := Vd.ap_ok h₂₁
    obtain ⟨g₁₉, a₂₀, h₁₉, hf₂₀, hg₂₀⟩ := Vd.ap_ok h₂₀
    obtain ⟨g₁₈, a₁₉, h₁₈, hf₁₉, hg₁₉⟩ := Vd.ap_ok h₁₉
    obtain ⟨g₁₇, a₁₈, h₁₇, hf₁₈, hg₁₈⟩ := Vd.ap_ok h₁₈
    obtain ⟨g₁₆, a₁₇, h₁₆, hf₁₇, hg₁₇⟩ := Vd.ap_ok h₁₇
    obtain ⟨g₁₅, a₁₆, h₁₅, hf₁₆, hg₁₆⟩ := Vd.ap_ok h₁₆
    obtain ⟨g₁₄, a₁₅, h₁₄, hf₁₅, hg₁₅⟩ := Vd.ap_ok h₁₅
    obtain ⟨g₁₃, a₁₄, h₁₃, hf₁₄, hg₁₄⟩ := Vd.ap_ok h₁₄
    obtain ⟨g₁₂, a₁₃, h₁₂, hf₁₃, hg₁₃⟩ := Vd.ap_ok h₁₃
    obtain ⟨g₁₁, a₁₂, h₁₁, hf₁₂, hg₁₂⟩ := Vd.ap_ok h₁₂
    obtain ⟨g₁₀, a₁₁, h₁₀, hf₁₁, hg₁₁⟩ := Vd.ap_ok h₁₁
    obtain ⟨g₉, a₁₀, h₉, hf₁₀, hg₁₀⟩ := Vd.ap_ok h₁₀
    obtain ⟨g₈, a₉, h₈, hf₉, hg₉⟩ := Vd.ap_ok h₉
    obtain ⟨g₇, a₈, h₇, hf₈, hg₈⟩ := Vd.ap_ok h₈
    obtain ⟨g₆, a₇, h₆, hf₇, hg₇⟩ := Vd.ap_ok h₇
    obtain ⟨g₅, a₆, h₅, hf₆, hg₆⟩ := Vd.ap_ok h₆
    obtain ⟨g₄, a₅, h₄, hf₅, hg₅⟩ := Vd.ap_ok h₅
    obtain ⟨g₃, a₄, h₃, hf₄, hg₄⟩ := Vd.ap_ok h₄
    obtain ⟨g₂, a₃, h₂, hf₃, hg₃⟩ := Vd.ap_ok h₃
    obtain ⟨g₁, a₂, h₁, hf₂, hg₂⟩ := Vd.ap_ok h₂
    obtain ⟨g₀, a₁, h₀, hf₁, hg₁⟩ := Vd.ap_ok h₁
    injection h₀ with h₀
    subst h₀ hg₁ hg₂ hg₃ hg₄ hg₅ hg₆ hg₇ hg₈ hg₉ hg₁₀ hg₁₁ hg₁₂ hg₁₃ hg₁₄ hg₁₅
    subst hg₁₆ hg₁₇ hg₁₈ hg₁₉ hg₂₀ hg₂₁ hx
    simp only [optField, hmiss] at hf₁₈
    injection hf₁₈ with hf₁₈
    exact hf₁₈.symm
  · rfl

/-- C3 witness: the universal parts instantiated at the empty payload and at
the concrete succeeded payment payload. -/
theorem c3_witness :
    PaymentsList.parse (.obj []) = .ok ⟨[], none⟩ ∧
    c3Payment.cancellation_details = none :=
  ⟨c3_absent_optional_defaults.2.1 [] rfl rfl,
   c3_absent_optional_defaults.2.2.1 c3Kvs c3Payment rfl
     c3_absent_optional_defaults.2.2.2⟩

/-! ## Claim C4: unknown enumeration members are rejected -/

/-- C4: a payload whose enumerated field value is not a member of the fixed
member set fails validation — an unrecognized Payment `status` string and an
unrecognized CancellationDetails `party` string both make construction fail
(there is no unknown/other fallback member). -/
theorem c4_unknown_enum_member_rejected :
    (∀ kvs s, jlookup kvs "status" = some (.str s) → s ∉ paymentStatusMembers →
      (Payment.parse (.obj kvs)).isOk = false) ∧
    (∀ kvs s, jlookup kvs "party" = some (.str s) → s ∉ cancellationPartyMembers →
      (CancellationDetails.parse (.obj kvs)).isOk = false) := by
  constructor
  · intro kvs s hlv hns
    have hc : reqField kvs "status" PaymentStatus.parse =
        .err ["status" ++ "." ++ "value is not a valid enumeration member"] := by
      simp [reqField, hlv, PaymentStatus.parse, enumParse, hns, Vd.ap, withPath]
    apply Vd.isOk_false_of_errs
    simp only [Payment.parse, Vd.errs_ap, hc]
    simp [Vd.errs]
  · intro kvs s hlv hns
    have hc : reqField kvs "party" CancellationParty.parse =
        .err ["party" ++ "." ++ "value is not a valid enumeration member"] := by
      simp [reqField, hlv, CancellationParty.parse, enumParse, hns, Vd.ap, withPath]
    apply Vd.isOk_false_of_errs
    simp only [CancellationDetails.parse, Vd.errs_ap, hc]
    simp [Vd.errs]

/-- C4 witness: concrete unrecognized member strings are rejected. -/
theorem c4_witness :
    "definitely_not_a_status" ∉ paymentStatusMembers ∧
    (Payment.parse (.obj [("status", .str "definitely_not_a_status")])).isOk = false ∧
    "nobody" ∉ cancellationPartyMembers ∧
    (CancellationDetails.parse (.obj [("party", .str "nobody")])).isOk = false :=
  ⟨by decide,
   c4_unknown_enum_member_rejected.1 _ "definitely_not_a_status" rfl (by decide),
   by decide,
   c4_unknown_enum_member_rejected.2 _ "nobody" rfl (by decide)⟩

/-! ## Claim C5: no non-negativity constraint on PaymentAmount.value -/

/-- C5 counterexample: a PaymentAmount with a negative `value` is constructible
(the schema layer performs no sign check), contradicting "no PaymentAmount with
a negative value is constructible". -/
theorem c5_counterexample :
    PaymentAmount.parse (.obj [("value", .num (-1)), ("currency", .str "RUB")]) =
      .ok ⟨.int (-1), "RUB"⟩ ∧ (-1 : ℤ) < 0 :=
  ⟨rfl, by decide⟩

/-- C5 (amended): `PaymentAmount` requires a numeric `value` and a string
`currency` but enforces no sign constraint — every integer value, negative
ones included, is accepted and stored unchanged; the non-negativity invariant
is a documented assumption about upstream data, not validated at this layer. -/
theorem c5_value_sign_unconstrained :
    ∀ (n : ℤ) (c : String),
      PaymentAmount.parse (.obj [("value", .num (n : ℚ)), ("currency", .str c)]) =
        .ok ⟨.int n, c⟩ := by
  intro n c
  simp [PaymentAmount.parse, reqField, jlookup, parseNum, parseStr, withPath, Vd.ap,
    Rat.den_intCast, Rat.num_intCast]

/-- C5 witness: the amended statement at a concrete negative input. -/
theorem c5_witness :
    PaymentAmount.parse (.obj [("value", .num ((-5 : ℤ) : ℚ)), ("currency", .str "EUR")]) =
      .ok ⟨.int (-5), "EUR"⟩ :=
  c5_value_sign_unconstrained (-5) "EUR"

/-! ## Claim C6: numeric precision of PaymentAmount.value

Rational literals in reduced constructor form, so that their numerator and
denominator compute definitionally, together with the evaluation of
`roundFloat` on them. -/

def ratTenth : ℚ := ⟨1, 10, by norm_num, by norm_num⟩

def ratThreeHalves : ℚ := ⟨3, 2, by norm_num, by norm_num⟩

def ratHundredPointFive : ℚ := ⟨201, 2, by norm_num, by norm_num⟩

theorem ratTenth_eq : ratTenth = (1 : ℚ)/10 := by
  unfold ratTenth
  rw [Rat.mk'_eq_divInt]
  norm_num [Rat.divInt_eq_div]

theorem ratThreeHalves_eq : ratThreeHalves = (3 : ℚ)/2 := by
  unfold ratThreeHalves
  rw [Rat.mk'_eq_divInt]
  norm_num [Rat.divInt_eq_div]

theorem ratHundredPointFive_eq : ratHundredPointFive = (201 : ℚ)/2 := by
  unfold ratHundredPointFive
  rw [Rat.mk'_eq_divInt]
  norm_num [Rat.divInt_eq_div]

theorem roundFloat_ratTenth :
    roundFloat ratTenth = 1 * ((7205759403792794 : ℤ) : ℚ) * (2 : ℚ) ^ ((-4 : ℤ) - 52) :=
  rfl

theorem roundFloat_ratThreeHalves :
    roundFloat ratThreeHalves = 1 * ((6755399441055744 : ℤ) : ℚ) * (2 : ℚ) ^ ((0 : ℤ) - 52) :=
  rfl

theorem roundFloat_ratHundredPointFive :
    roundFloat ratHundredPointFive =
      1 * ((7072058789855232 : ℤ) : ℚ) * (2 : ℚ) ^ ((6 : ℤ) - 52) :=
  rfl

/-- C6 counterexample: the decimal 0.1 cannot be stored exactly — whether it
arrives as the JSON number 0.1 or as the text "0.1", the `int | float` field
stores the nearest binary64, which differs from 1/10, so "the normalized
stored value preserves the input's exact numeric precision" fails for this
input. -/
theorem c6_counterexample :
    PaymentAmount.parse (.obj [("value", .num (1/10)), ("currency", .str "RUB")]) =
      .ok ⟨.float (roundFloat (1/10)), "RUB"⟩ ∧
    PaymentAmount.parse (.obj [("value", .str "0.1"), ("currency", .str "RUB")]) =
      .ok ⟨.float (roundFloat (decValue 1 1)), "RUB"⟩ ∧
    decValue 1 1 = (1/10 : ℚ) ∧
    roundFloat (1/10) ≠ (1/10 : ℚ) := by
  refine ⟨?_, ?_, ?_, ?_⟩
  · rw [← ratTenth_eq]
    rfl
  · rfl
  · norm_num [decValue]
  · rw [← ratTenth_eq, roundFloat_ratTenth, ratTenth_eq]
    norm_num [zpow_neg]

/-- C6 (amended): integer inputs — JSON numbers or integral decimal text —
are stored as exact ints, preserved exactly; a non-integral decimal, numeric
or textual, is normalized to the nearest IEEE-754 binary64 float, so
fractional precision is preserved exactly when and only when the decimal
value is binary64-representable — 100.50 (also as the text "100.50") is
preserved, while 0.10 (see the counterexample) is rounded. -/
theorem c6_numeric_normalization :
    (∀ (n : ℤ) (c : String),
      PaymentAmount.parse (.obj [("value", .num (n : ℚ)), ("currency", .str c)]) =
        .ok ⟨.int n, c⟩) ∧
    (∀ (q : ℚ) (c : String), q.den ≠ 1 →
      PaymentAmount.parse (.obj [("value", .num q), ("currency", .str c)]) =
        .ok ⟨.float (roundFloat q), c⟩) ∧
    (∀ (s : String) (m : ℤ) (c : String), decNum? s = some (m, 0) →
      PaymentAmount.parse (.obj [("value", .str s), ("currency", .str c)]) =
        .ok ⟨.int m, c⟩) ∧
    (∀ (s : String) (m : ℤ) (k : ℕ) (c : String), decNum? s = some (m, k) → k ≠ 0 →
      PaymentAmount.parse (.obj [("value", .str s), ("currency", .str c)]) =
        .ok ⟨.float (roundFloat (decValue m k)), c⟩) ∧
    decNum? "100.50" = some (10050, 2) ∧
    roundFloat (decValue 10050 2) = (201/2 : ℚ) ∧
    roundFloat (201/2) = (201/2 : ℚ) := by
  refine ⟨?_, ?_, ?_, ?_, ?_, ?_, ?_⟩
  · intro n c
    simp [PaymentAmount.parse, reqField, jlookup, parseNum, parseStr, withPath, Vd.ap,
      Rat.den_intCast, Rat.num_intCast]
  · intro q c hden
    simp [PaymentAmount.parse, reqField, jlookup, parseNum, parseStr, withPath, Vd.ap,
      hden]
  · intro s m c hdec
    simp [PaymentAmount.parse, reqField, jlookup, parseNum, parseStr, withPath, Vd.ap,
      hdec]
  · intro s m k c hdec hk
    simp [PaymentAmount.parse, reqField, jlookup, parseNum, parseStr, withPath, Vd.ap,
      hdec, hk]
  · decide
  · have hdv : decValue 10050 2 = (201/2 : ℚ) := by norm_num [decValue]
    rw [hdv, ← ratHundredPointFive_eq, roundFloat_ratHundredPointFive,
      ratHundredPointFive_eq]
    norm_num [zpow_neg]
  · rw [← ratHundredPointFive_eq, roundFloat_ratHundredPointFive, ratHundredPointFive_eq]
    norm_num [zpow_neg]

/-- C6 witness: a binary64-representable decimal (3/2 = 1.5) is stored as a
float and preserved exactly, and the textual inputs "100" and "100.50" are
coerced — "100" to the exact int 100, "100.50" to the float of 100.50. -/
theorem c6_witness :
    (3/2 : ℚ).den ≠ 1 ∧
    PaymentAmount.parse (.obj [("value", .num (3/2)), ("currency", .str "RUB")]) =
      .ok ⟨.float (roundFloat (3/2)), "RUB"⟩ ∧
    roundFloat (3/2) = (3/2 : ℚ) ∧
    decNum? "100" = some (100, 0) ∧
    PaymentAmount.parse (.obj [("value", .str "100"), ("currency", .str "RUB")]) =
      .ok ⟨.int 100, "RUB"⟩ ∧
    PaymentAmount.parse (.obj [("value", .str "100.50"), ("currency", .str "RUB")]) =
      .ok ⟨.float (roundFloat (decValue 10050 2)), "RUB"⟩ := by
  refine ⟨?_, ?_, ?_, ?_, ?_, ?_⟩
  · rw [← ratThreeHalves_eq]
    decide
  · exact c6_numeric_normalization.2.1 (3/2) "RUB" (by rw [← ratThreeHalves_eq]; decide)
  · rw [← ratThreeHalves_eq, roundFloat_ratThreeHalves, ratThreeHalves_eq]
    norm_num [zpow_neg]
  · decide
  · exact c6_numeric_normalization.2.2.1 "100" 100 "RUB" (by decide)
  · exact c6_numeric_normalization.2.2.2.1 "100.50" 10050 2 "RUB" (by decide) (by decide)

/-! ## Claim C7: CardInfo wire aliases -/

def c7Kvs : List (String × Json) :=
  [("first6", .str "411111"), ("last4", .str "1111"), ("expiry_year", .str "2027"),
   ("expiry_month", .str "12"), ("card_type", .str "Visa")]

def c7Card : CardInfo :=
  ⟨some "411111", "1111", "2027", "12", "Visa", none, none, none⟩

/-- C7: a CardInfo payload supplying the wire names `first6 = "411111"` and
`last4 = "1111"` parses with the canonical fields `first_six = "411111"` and
`last_four = "1111"`; the concrete payload below constructs successfully. -/
theorem c7_cardinfo_wire_aliases :
    (∀ kvs x, CardInfo.parse (.obj kvs) = .ok x →
      jlookup kvs "first6" = some (.str "411111") →
      jlookup kvs "last4" = some (.str "1111") →
      x.first_six = some "411111" ∧ x.last_four = "1111") ∧
    CardInfo.parse (.obj c7Kvs) = .ok c7Card := by
  constructor
  · intro kvs x hp hl6 hl4
    simp only [CardInfo.parse] at hp
    obtain ⟨g₇, a₈, h₇, hf₈, hx⟩ := Vd.ap_ok hp
    obtain ⟨g₆, a₇, h₆, hf₇, hg₇⟩ := Vd.ap_ok h₇
    obtain ⟨g₅, a₆, h₅, hf₆, hg₆⟩ := Vd.ap_ok h₆
    obtain ⟨g₄, a₅, h₄, hf₅, hg₅⟩ := Vd.ap_ok h₅
    obtain ⟨g₃, a₄, h₃, hf₄, hg₄⟩ := Vd.ap_ok h₄
    obtain ⟨g₂, a₃, h₂, hf₃, hg₃⟩ := Vd.ap_ok h₃
    obtain ⟨g₁, a₂, h₁, hf₂, hg₂⟩ := Vd.ap_ok h₂
    obtain ⟨g₀, a₁, h₀, hf₁, hg₁⟩ := Vd.ap_ok h₁
    injection h₀ with h₀
    subst h₀ hg₁ hg₂ hg₃ hg₄ hg₅ hg₆ hg₇ hx
    rcases optField_ok_of_lookup hl6 hf₁ with ⟨hnull, -⟩ | ⟨a, hpa, ha⟩
    · exact absurd hnull (by simp)
    · have ha₂ := reqField_ok_of_lookup hl4 hf₂
      simp only [parseStr] at hpa ha₂
      injection hpa with hpa
      injection ha₂ with ha₂
      subst hpa ha₂ ha
      exact ⟨rfl, rfl⟩
  · rfl

/-- C7 witness: the universal part instantiated at the concrete payload. -/
theorem c7_witness :
    jlookup c7Kvs "first6" = some (.str "411111") ∧
    jlookup c7Kvs "last4" = some (.str "1111") ∧
    c7Card.first_six = some "411111" ∧ c7Card.last_four = "1111" :=
  ⟨rfl, rfl,
   (c7_cardinfo_wire_aliases.1 c7Kvs c7Card c7_cardinfo_wire_aliases.2 rfl rfl).1,
   (c7_cardinfo_wire_aliases.1 c7Kvs c7Card c7_cardinfo_wire_aliases.2 rfl rfl).2⟩

/-! ## Claim C8: Deal.settlements element type -/

def c8Entry : Json :=
  .obj [("type", .str "payout"),
        ("amount", .obj [("value", .num 100), ("currency", .str "RUB")])]

def c8DealPayload : Json :=
  .obj [("id", .str "dl-1"), ("settlements", .arr [c8Entry])]

/-- C8: the payload entry has exactly the Settlement shape (a `type`
discriminator plus an `amount`) and validates as a Settlement, but a Deal
whose `settlements` holds that entry fails construction: the source annotates
`Deal.settlements` as `List[PaymentAmount]`, so each element is validated as a
PaymentAmount and the missing `value`/`currency` keys are reported. -/
theorem c8_deal_settlements_mismatch :
    Settlement.parse c8Entry = .ok ⟨"payout", ⟨.int 100, "RUB"⟩⟩ ∧
    (Deal.parse c8DealPayload).isOk = false ∧
    "settlements.value" ∈ (Deal.parse c8DealPayload).errs ∧
    "settlements.currency" ∈ (Deal.parse c8DealPayload).errs := by
  refine ⟨rfl, rfl, ?_, ?_⟩ <;> decide

/-! ## Claim C9: parse/dump round trip -/

def c9Kvs : List (String × Json) :=
  [("id", .str "pay-9"), ("status", .str "succeeded"),
   ("amount", .obj [("value", .num 100), ("currency", .str "RUB")]),
   ("recipient", .obj [("account_id", .str "acct"), ("gateway_id", .str "gw")]),
   ("created_at", .str "2022-01-01T00:00:00"),
   ("test", .bool false), ("paid", .bool true), ("refundable", .bool false)]

def c9Payment : Payment :=
  ⟨"pay-9", ⟨"succeeded"⟩, ⟨.int 100, "RUB"⟩, none, none, ⟨"acct", "gw"⟩, none, none,
   ⟨"2022-01-01T00:00:00"⟩, none, none, false, none, true, false, none, none, none,
   none, none, none, none⟩

def c9CexKvs : List (String × Json) :=
  [("id", .str "pay-9"), ("status", .str "succeeded"),
   ("amount", .obj [("value", .num 100), ("currency", .str "RUB")]),
   ("recipient", .obj [("account_id", .str "acct"), ("gateway_id", .str "gw")]),
   ("created_at", .str "2022-01-01T00:00:00"),
   ("test", .bool false), ("paid", .bool true), ("refundable", .bool false),
   ("processor_ref", .str "x")]

/-- C9 counterexample: a payment payload with an unrecognized wire key
(`processor_ref`) parses successfully — pydantic ignores unknown keys — but
re-serializing the entity drops that wire-field/value pair, so the output is
not equivalent to the input: parse-then-serialize is not a round trip for
every successfully-parsed payload. -/
theorem c9_counterexample :
    Payment.parse (.obj c9CexKvs) = .ok c9Payment ∧
    covers (Payment.dump c9Payment) (.obj c9CexKvs) = false :=
  ⟨rfl, rfl⟩

/-- C9 (amended): for every payment payload that parses successfully, is
built of the model's recognized wire names at every nesting level with
duplicate-free keys, and carries each value in its field's canonical wire
form — strings for textual and enumerated fields, JSON booleans for flags,
integral JSON numbers for monetary values, canonical naive ISO text for
timestamps, nested objects of the same shape, and canonically-shaped
metadata — every wire-field/value pair of the input reappears in the
`by_alias` re-serialization (recursively; the output may add explicit nulls
for optional fields the input omitted).  Outside these canonical forms the
round trip genuinely fails: unrecognized keys are dropped (the
counterexample), and pydantic's lax coercions — numeric text for
`int | float`, boolean strings, non-canonical timestamp text — parse but
re-serialize in normalized form, losing the original textual pair. -/
theorem c9_roundtrip_covered :
    ∀ j x, Payment.shape j = true → Payment.parse j = .ok x →
      covers (Payment.dump x) j = true :=
  fun _ _ hs hp => paymentParseCovers hs hp

/-- C9 witness: the round trip at a concrete well-shaped payload. -/
theorem c9_witness :
    Payment.shape (.obj c9Kvs) = true ∧
    Payment.parse (.obj c9Kvs) = .ok c9Payment ∧
    covers (Payment.dump c9Payment) (.obj c9Kvs) = true :=
  ⟨rfl, rfl, c9_roundtrip_covered (.obj c9Kvs) c9Payment rfl rfl⟩

/-! ## Claim C10: AuthorizationDetails.three_d_secure is mandatory -/

/-- C10: an AuthorizationDetails payload lacking the `three_d_secure` key
fails validation with an error naming that field, while both aliased
identifier fields (`rrn`, `auth_code`) are optional: a payload carrying only
`three_d_secure` constructs with both identifiers null. -/
theorem c10_three_d_secure_mandatory :
    (∀ kvs, jlookup kvs "three_d_secure" = none →
      "three_d_secure" ∈ (AuthorizationDetails.parse (.obj kvs)).errs ∧
        (AuthorizationDetails.parse (.obj kvs)).isOk = false) ∧
    AuthorizationDetails.parse
        (.obj [("three_d_secure", .obj [("applied", .bool true)])]) =
      .ok ⟨none, none, ⟨true⟩⟩ := by
  constructor
  · intro kvs hmiss
    have hc : reqField kvs "three_d_secure" ThreeDSInfo.parse = .err ["three_d_secure"] := by
      simp [reqField, hmiss]
    have hmem : "three_d_secure" ∈ (AuthorizationDetails.parse (.obj kvs)).errs := by
      simp only [AuthorizationDetails.parse, Vd.errs_ap, hc]
      simp [Vd.errs]
    exact ⟨hmem, Vd.isOk_false_of_errs (List.ne_nil_of_mem hmem)⟩
  · rfl

/-- C10 witness: the empty payload is missing `three_d_secure`. -/
theorem c10_witness :
    "three_d_secure" ∈ (AuthorizationDetails.parse (.obj [])).errs ∧
    (AuthorizationDetails.parse (.obj [])).isOk = false :=
  c10_three_d_secure_mandatory.1 [] rfl
